import Mathlib

/-!
Shallow embedding of the conversational booking engine of
src/services/booking_service.py (class BookingService), together with the
collaborator boundary it consumes.  Python strings stay strings, the mutable
per-recipient tables (self.user_states, self.retry_counts) become an explicit
per-recipient configuration, collaborator calls become fields of an
environment record, and every outbound send is recorded symbolically in the
order it is issued.  All string primitives are implemented by structural
recursion over the character list so that every run of the engine on concrete
data evaluates inside the kernel.
-/

namespace SalonBooking

/-! Python string primitives used by the engine: str.lower, str.upper,
str.strip, str.split, int(...) parsing, and datetime.strptime for the two
formats the engine uses. -/

def isPySpace (c : Char) : Bool :=
  c = ' ' || c = '\t' || c = '\n' || c = '\r' || c.toNat = 11 || c.toNat = 12

def stripChars (cs : List Char) : List Char :=
  ((cs.dropWhile isPySpace).reverse.dropWhile isPySpace).reverse

def pyLower (s : String) : String := String.mk (s.data.map Char.toLower)

def pyUpper (s : String) : String := String.mk (s.data.map Char.toUpper)

def pyStrip (s : String) : String := String.mk (stripChars s.data)

def splitChar : List Char → Char → List (List Char)
  | [], _ => [[]]
  | x :: xs, c =>
    if x = c then [] :: splitChar xs c
    else
      match splitChar xs c with
      | [] => [[x]]
      | y :: ys => (x :: y) :: ys

def breakFirst : List Char → Char → List Char × Option (List Char)
  | [], _ => ([], none)
  | x :: xs, c =>
    if x = c then ([], some xs)
    else
      let r := breakFirst xs c
      (x :: r.1, r.2)

/-- Embedding of str.split(sep, 1): split at the first occurrence only. -/
def splitFirst (s : String) (sep : Char) : String × Option String :=
  let r := breakFirst s.data sep
  (String.mk r.1, r.2.map String.mk)

def digitsToNat (cs : List Char) : Nat :=
  cs.foldl (fun a c => a * 10 + (c.toNat - ('0').toNat)) 0

def parseNatDigits (cs : List Char) : Option Nat :=
  if cs ≠ [] ∧ cs.all Char.isDigit then some (digitsToNat cs) else none

/-- Embedding of Python int(message.strip()): optional sign followed by
decimal digits, surrounding whitespace removed. -/
def parseInt (s : String) : Option Int :=
  match stripChars s.data with
  | '-' :: rest => (parseNatDigits rest).map (fun n => -(n : Int))
  | '+' :: rest => (parseNatDigits rest).map (fun n => (n : Int))
  | cs => (parseNatDigits cs).map (fun n => (n : Int))

/-- Embedding of datetime.strptime(s, "%I:%M %p"): returns (hour24, minute). -/
def parse12h (s : String) : Option (Nat × Nat) :=
  match splitChar s.data ' ' with
  | [hm, ap] =>
    match splitChar hm ':' with
    | [hs, ms] =>
      match parseNatDigits hs, parseNatDigits ms with
      | some h, some m =>
        if 1 ≤ h ∧ h ≤ 12 ∧ hs.length ≤ 2 ∧ 1 ≤ hs.length ∧
            m ≤ 59 ∧ ms.length ≤ 2 ∧ 1 ≤ ms.length then
          if ap.map Char.toUpper = ['A', 'M'] then some (if h = 12 then 0 else h, m)
          else if ap.map Char.toUpper = ['P', 'M'] then some (if h = 12 then 12 else h + 12, m)
          else none
        else none
      | _, _ => none
    | _ => none
  | _ => none

def twoDigits (n : Nat) : String :=
  if n < 10 then "0" ++ toString n else toString n

/-- Embedding of time.strftime("%I:%M %p") for an (hour24, minute) pair. -/
def fmt12h (h24 m : Nat) : String :=
  let h12 := if h24 % 12 = 0 then 12 else h24 % 12
  twoDigits h12 ++ ":" ++ twoDigits m ++ " " ++ (if h24 < 12 then "AM" else "PM")

def isLeap (y : Nat) : Bool := (y % 4 = 0 && y % 100 ≠ 0) || y % 400 = 0

def daysInMonth (y m : Nat) : Nat :=
  if m = 2 then (if isLeap y then 29 else 28)
  else if m = 4 ∨ m = 6 ∨ m = 9 ∨ m = 11 then 30
  else 31

/-- Embedding of datetime.strptime(s, "%Y-%m-%d"): returns (year, month, day). -/
def parseDate (s : String) : Option (Nat × Nat × Nat) :=
  match splitChar s.data '-' with
  | [ys, ms, ds] =>
    match parseNatDigits ys, parseNatDigits ms, parseNatDigits ds with
    | some y, some m, some d =>
      if ys.length = 4 ∧ 1 ≤ ms.length ∧ ms.length ≤ 2 ∧ 1 ≤ ds.length ∧ ds.length ≤ 2 ∧
          1 ≤ m ∧ m ≤ 12 ∧ 1 ≤ d ∧ d ≤ daysInMonth y m then
        some (y, m, d)
      else none
    | _, _, _ => none
  | _ => none

def sakamotoTable : List Nat := [0, 3, 2, 5, 0, 3, 5, 1, 4, 6, 2, 4]

/-- Embedding of datetime.weekday(): Monday is 0, Sunday is 6. -/
def pyWeekday (y m d : Nat) : Nat :=
  let y' := if m < 3 then y - 1 else y
  (y' + y' / 4 - y' / 100 + y' / 400 + sakamotoTable.getD (m - 1) 0 + d + 6) % 7

/-- A Python datetime value at minute granularity, as stored in the
appointment_date field and as produced by strptime: parsing "%Y-%m-%d"
yields midnight of that day, while the engine's own write path stores the
slot hour (booking_service.py replace(hour=..., minute=...)). Equality is
exact, time of day included, mirroring BSON datetime equality. -/
structure PyDateTime where
  year : Nat
  month : Nat
  day : Nat
  hour : Nat
  minute : Nat
deriving DecidableEq, Repr

/-- TIME_LABELS from booking_service.py: the 13 one-hour buckets 9:00-21:00. -/
def TIME_LABELS : List String :=
  ["09:00 AM", "10:00 AM", "11:00 AM", "12:00 PM",
   "01:00 PM", "02:00 PM", "03:00 PM", "04:00 PM",
   "05:00 PM", "06:00 PM", "07:00 PM", "08:00 PM", "09:00 PM"]

/-! Domain records as the engine consumes them: Salon and Service are the
pydantic models read field-wise in booking_service.py, Expert is the
dictionary shape used by show-experts (expert_id and name keys), Slot is the
time-slot dictionary with start_time and end_time labels, and CartItem is one
entry of user_states[...]["selected_services"]. -/

structure Salon where
  salon_id : String
  name : String
  address : String
deriving DecidableEq, Repr

structure Service where
  service_id : String
  name : String
  cost : Nat
  duration : Nat
deriving DecidableEq, Repr

structure Expert where
  expert_id : String
  name : String
deriving DecidableEq, Repr

structure Slot where
  start_time : String
  end_time : String
deriving DecidableEq, Repr

structure CartItem where
  salon : Salon
  service : Service
  expert : Expert
  date : String
  time_slot : Slot
deriving DecidableEq, Repr

/-- The conversation state strings assigned by booking_service.py. -/
inductive BState
  | welcome
  | registration
  | salon_selection
  | service_selection
  | expert_selection
  | date_selection
  | time_selection
  | confirmation
  | feedback
deriving DecidableEq, Repr

/-- One recipient's entry of self.user_states: the state tag plus every key
the handlers read or write, absent keys modelled as none. -/
structure Session where
  state : BState
  user_id : Option String := none
  last_message_time : Nat := 0
  registration_step : Option String := none
  reg_name : Option String := none
  reg_email : Option String := none
  reg_address : Option String := none
  salons : Option (List Salon) := none
  services : Option (List Service) := none
  experts : Option (List Expert) := none
  available_dates : Option (List String) := none
  available_time_slots : Option (List Slot) := none
  selected_salon : Option Salon := none
  selected_service : Option Service := none
  selected_expert : Option Expert := none
  selected_date : Option String := none
  selected_services : Option (List CartItem) := none
  appointment_id : Option String := none
deriving DecidableEq, Repr

/-- A stored appointment document as the conflict query in
show-available-times filters it: expert_id, the appointment_date datetime
(which may carry a time of day, as the engine's own write path stores), the
appointment_time label and the status. -/
structure Appt where
  expert_id : String
  appointment_date : PyDateTime
  appointment_time : String
  status : String
deriving DecidableEq, Repr

/-- The ExpertAvailability document: is_available plus the weekday-indexed
slot table (keys "0".."6", 13 booleans per day). -/
structure Availability where
  is_available : Bool
  days : List (String × List Bool)
deriving DecidableEq, Repr

def lookupDay (days : List (String × List Bool)) (k : String) : Option (List Bool) :=
  (days.find? (fun p => p.1 = k)).map Prod.snd

/-- The collaborator boundary: clocks plus every external call the engine
makes.  Except Unit models a raised exception; Option models a not-found
result where the collaborating function swallows its own errors. -/
structure Env where
  now : Nat
  today : Nat
  date_of : Nat → String
  get_user_by_phone : Except Unit (Option String)
  get_all_salons : Except Unit (List Salon)
  get_salon_services : String → Except Unit (List String)
  get_service : String → Except Unit (Option Service)
  get_salon_experts : String → Except Unit (List String)
  get_expert_availability : String → String → Option Availability
  appointments : List Appt
  create_appointment : String → CartItem → Except Unit String
  create_user : String → String → String → String → Except Unit String
  get_appointment : String → Except Unit (Option Unit)

/-- The conflict query of show-available-times: any stored appointment for
this expert whose appointment_date equals the given datetime exactly (the
query compares against the midnight datetime parsed from selected_date) and
whose appointment_time equals the start label, with status confirmed or
pending. -/
def hasConflict (env : Env) (expert_id : String) (sd : PyDateTime) (time : String) : Bool :=
  env.appointments.any (fun a =>
    a.expert_id = expert_id && a.appointment_date = sd && a.appointment_time = time &&
    (a.status = "confirmed" || a.status = "pending"))

/-! Observable outputs.  Every distinct outbound text the engine can send is
one constructor, carrying the data the Python code interpolates into it. -/

inductive SmsText
  | enterEmail
  | enterAddress
  | enterPassword
  | passwordTooShort
  | regSuccess (name : String)
  | regFailed
  | somethingWentWrongHi
  | cancelled
  | loginError
  | noSalons
  | salonList (salons : List Salon)
  | invalidSelection
  | enterValidNumber
  | tooManyStartOver
  | tooManySendHi
  | invalidTransitionTryHi
  | noServicesAtSalon
  | errorLoadingServices
  | serviceList (services : List Service)
  | noExpertsAtSalon
  | dateList (dates : List String)
  | expertNotAvailable
  | noTimeSlotsForDate
  | timeList (slots : List Slot)
  | somethingWentWrongTryHi
  | somethingWentWrongSendHi
  | troubleServiceList
  | troubleExpertList
  | noServicesSelected
  | troubleConfirm
  | confirmPromptAdd (items : List CartItem)
  | confirmPromptNoAdd (items : List CartItem)
  | allConfirmed (items : List CartItem)
  | appointmentsError
  | invalidConfirmAdd
  | invalidConfirmNoAdd
  | feedbackTooMany
  | feedbackInvalidRating
  | feedbackCantProcess
  | feedbackCantSave
  | feedbackNotFound
  | feedbackThanks
deriving DecidableEq, Repr

inductive Out
  | welcomeMsg
  | registrationPrompt
  | sms (t : SmsText)
deriving DecidableEq, Repr

/-- The returned dictionary: its status and message keys when present. -/
structure Ret where
  status : Option String := none
  message : Option String := none
deriving DecidableEq, Repr

def retSuccess : Ret := { status := some "success" }

def retError (m : String) : Ret := { status := some "error", message := some m }

/-- Result of one engine entry: the recipient's session and retry-counter
entries afterwards, the outbound sends in order, the cart items for which
appointment creation was requested and the ones actually created, and the
returned dictionary. -/
structure StepResult where
  session : Option Session
  retry : Option Nat
  sent : List Out
  apptRequests : List CartItem := []
  apptCreated : List CartItem := []
  ret : Ret
deriving DecidableEq, Repr

/-- The per-recipient slice of the two keyed tables. -/
structure Cfg where
  session : Option Session
  retry : Option Nat
deriving DecidableEq, Repr

/-- BookingService.increment-retry: bump the count, report whether it
reached 3. -/
def incrementRetry (r : Option Nat) : Nat × Bool :=
  let n := r.getD 0 + 1
  (n, 3 ≤ n)

/-- The legal transition table of BookingService.validate-state-transition. -/
def validTransitions : BState → List BState
  | .welcome => [.registration, .salon_selection]
  | .registration => [.salon_selection]
  | .salon_selection => [.service_selection]
  | .service_selection => [.expert_selection]
  | .expert_selection => [.date_selection]
  | .date_selection => [.time_selection]
  | .time_selection => [.confirmation]
  | .confirmation => [.salon_selection]
  | .feedback => []

def validateStateTransition (c n : BState) : Bool :=
  (validTransitions c).contains n

/-! The list-presentation steps.  Each one takes the environment, the
recipient's current session (present at every call site) and the current
retry entry, and returns the full step result.  Reset-user-state is the
session := none, retry := none outcome. -/

/-- BookingService.show-salons. -/
def show_salons (env : Env) (s : Session) (retry : Option Nat) : StepResult :=
  match env.get_all_salons with
  | .error _ =>
    { session := none, retry := none, sent := [.sms .somethingWentWrongHi],
      ret := retError "exc" }
  | .ok salons =>
    if salons.isEmpty then
      { session := some s, retry := retry, sent := [.sms .noSalons],
        ret := retError "No salons available" }
    else
      { session := some { s with salons := some salons }, retry := retry,
        sent := [.sms (.salonList salons)], ret := retSuccess }

/-- The per-id fetch loop of show-services: a service is appended when its
lookup neither raises nor returns None. -/
def fetch_services (env : Env) (ids : List String) : List Service :=
  ids.foldl (fun acc sid =>
    match env.get_service sid with
    | .ok (some svc) => acc ++ [svc]
    | _ => acc) []

/-- BookingService.show-services. -/
def show_services (env : Env) (s : Session) (retry : Option Nat) : StepResult :=
  match s.selected_salon with
  | none =>
    { session := none, retry := none, sent := [.sms .troubleServiceList],
      ret := retError "exc" }
  | some salon =>
    match env.get_salon_services salon.salon_id with
    | .error _ =>
      { session := none, retry := none, sent := [.sms .troubleServiceList],
        ret := retError "exc" }
    | .ok service_ids =>
      if service_ids.isEmpty then
        { session := none, retry := none, sent := [.sms .noServicesAtSalon],
          ret := retError "No services available" }
      else
        let services := fetch_services env service_ids
        if services.isEmpty then
          { session := none, retry := none, sent := [.sms .errorLoadingServices],
            ret := retError "Error loading services" }
        else
          { session := some { s with services := some services }, retry := retry,
            sent := [.sms (.serviceList services)], ret := retSuccess }

/-- BookingService.show-experts.  get_salon_experts returns the salon's
expert-id strings (Salon.experts is List[str]); on a nonempty list the
message loop calls expert.get('name', ...) on a str, raising AttributeError
at the first element, so the except branch sends the trouble message and
resets — a nonempty result never presents a list or keeps the session. -/
def show_experts (env : Env) (s : Session) (retry : Option Nat) : StepResult :=
  match s.selected_salon with
  | none =>
    { session := none, retry := none, sent := [.sms .troubleExpertList],
      ret := retError "exc" }
  | some salon =>
    match env.get_salon_experts salon.salon_id with
    | .error _ =>
      { session := none, retry := none, sent := [.sms .troubleExpertList],
        ret := retError "exc" }
    | .ok expert_list =>
      if expert_list.isEmpty then
        { session := none, retry := none, sent := [.sms .noExpertsAtSalon],
          ret := retError "No experts available" }
      else
        { session := none, retry := none, sent := [.sms .troubleExpertList],
          ret := retError "exc" }

/-- BookingService.show-available-dates: the next 7 calendar dates. -/
def show_available_dates (env : Env) (s : Session) (retry : Option Nat) : StepResult :=
  let dates := (List.range 7).map (fun i => env.date_of (env.today + (i + 1)))
  { session := some { s with available_dates := some dates }, retry := retry,
    sent := [.sms (.dateList dates)], ret := retSuccess }

/-- The slot-collection loop of show-available-times: for each marked hour,
index TIME_LABELS (IndexError aborts, modelled as none), query for a
conflicting appointment, and when free parse the label and append the slot
with its one-hour end time.  none stands for the raised-exception outcome. -/
def collectSlotsGo (env : Env) (expert_id : String) (sd : PyDateTime) :
    Nat → List Bool → Option (List Slot)
  | _, [] => some []
  | i, b :: rest =>
    if b then
      match TIME_LABELS.get? i with
      | none => none
      | some lab =>
        if hasConflict env expert_id sd lab then
          collectSlotsGo env expert_id sd (i + 1) rest
        else
          match parse12h lab with
          | none => none
          | some hm =>
            (collectSlotsGo env expert_id sd (i + 1) rest).map
              (fun l => { start_time := lab, end_time := fmt12h ((hm.1 + 1) % 24) hm.2 } :: l)
    else collectSlotsGo env expert_id sd (i + 1) rest

/-- BookingService.show-available-times. -/
def show_available_times (env : Env) (s : Session) (retry : Option Nat) : StepResult :=
  match s.selected_salon, s.selected_expert, s.selected_date.bind parseDate with
  | some salon, some expert, some ymd =>
    let wd := toString (pyWeekday ymd.1 ymd.2.1 ymd.2.2)
    let sd : PyDateTime := { year := ymd.1, month := ymd.2.1, day := ymd.2.2, hour := 0, minute := 0 }
    match env.get_expert_availability salon.salon_id expert.expert_id with
    | none =>
      let r := show_experts env { s with state := .expert_selection } retry
      { r with sent := .sms .expertNotAvailable :: r.sent }
    | some availability =>
      if !availability.is_available then
        let r := show_experts env { s with state := .expert_selection } retry
        { r with sent := .sms .expertNotAvailable :: r.sent }
      else
        let slots_for_day := (lookupDay availability.days wd).getD (List.replicate 13 false)
        if !(slots_for_day.any (· = true)) then
          let r := show_available_dates env { s with state := .date_selection } retry
          { r with sent := .sms .noTimeSlotsForDate :: r.sent }
        else
          match collectSlotsGo env expert.expert_id sd 0 slots_for_day with
          | none =>
            { session := none, retry := none, sent := [.sms .somethingWentWrongTryHi],
              ret := retError "exc" }
          | some available_slots =>
            if available_slots.isEmpty then
              let r := show_available_dates env { s with state := .date_selection } retry
              { r with sent := .sms .noTimeSlotsForDate :: r.sent }
            else
              let s' := { s with available_time_slots := some available_slots,
                                 state := BState.time_selection }
              { session := some s',
                retry := retry, sent := [.sms (.timeList available_slots)],
                ret := retSuccess }
  | _, _, _ =>
    { session := none, retry := none, sent := [.sms .somethingWentWrongTryHi],
      ret := retError "exc" }

/-- Whether the confirmation renderer can format this item: both slot labels
must survive the strptime round trip used when building the message. -/
def itemRenderOk (it : CartItem) : Bool :=
  (parse12h it.time_slot.start_time).isSome && (parse12h it.time_slot.end_time).isSome

/-- BookingService.show-confirmation. -/
def show_confirmation (s : Session) (retry : Option Nat) : StepResult :=
  let items := s.selected_services.getD []
  if items.isEmpty then
    { session := none, retry := none, sent := [.sms .noServicesSelected],
      ret := retError "No services selected" }
  else if items.all itemRenderOk then
    if items.length < 5 then
      { session := some s, retry := retry, sent := [.sms (.confirmPromptAdd items)],
        ret := retSuccess }
    else
      { session := some s, retry := retry, sent := [.sms (.confirmPromptNoAdd items)],
        ret := retSuccess }
  else
    { session := none, retry := none, sent := [.sms .troubleConfirm],
      ret := retError "exc" }

/-- BookingService.handle-registration-state. -/
def handle_registration_state (env : Env) (s : Session) (retry : Option Nat)
    (message : String) : StepResult :=
  let step := s.registration_step.getD "name"
  if step = "name" then
    { session := some { s with registration_step := some "email",
                               reg_name := some (pyStrip message) },
      retry := retry, sent := [.sms .enterEmail], ret := { status := some "awaiting_email" } }
  else if step = "email" then
    { session := some { s with registration_step := some "address",
                               reg_email := some (pyStrip message) },
      retry := retry, sent := [.sms .enterAddress], ret := { status := some "awaiting_address" } }
  else if step = "address" then
    { session := some { s with registration_step := some "password",
                               reg_address := some (pyStrip message) },
      retry := retry, sent := [.sms .enterPassword], ret := { status := some "awaiting_password" } }
  else if step = "password" then
    if (pyStrip message).length < 8 then
      { session := some s, retry := retry, sent := [.sms .passwordTooShort],
        ret := { status := some "invalid_password" } }
    else
      match s.reg_name, s.reg_email, s.reg_address with
      | some nm, some em, some ad =>
        match env.create_user nm em ad (pyStrip message) with
        | .ok uid =>
          let s' : Session :=
            { state := .salon_selection, user_id := some uid, last_message_time := env.now }
          let r := show_salons env s' retry
          { r with sent := .sms (.regSuccess nm) :: r.sent }
        | .error _ =>
          { session := none, retry := none, sent := [.sms .regFailed],
            ret := retError "exc" }
      | _, _, _ =>
        { session := none, retry := none, sent := [.sms .regFailed],
          ret := retError "exc" }
  else
    { session := none, retry := none, sent := [.sms .somethingWentWrongHi],
      ret := retError "Unknown registration step" }

/-- BookingService.handle-salon-selection-state. -/
def handle_salon_selection_state (env : Env) (s : Session) (retry : Option Nat)
    (message : String) : StepResult :=
  match parseInt message with
  | none =>
    let r := incrementRetry retry
    if r.2 then
      { session := none, retry := none, sent := [.sms .tooManyStartOver],
        ret := retError "Too many retries" }
    else
      { session := some s, retry := some r.1, sent := [.sms .enterValidNumber],
        ret := retError "Invalid number format" }
  | some v =>
    let salons := s.salons.getD []
    if salons.isEmpty then show_salons env s retry
    else
      let invalid : StepResult :=
        let r := incrementRetry retry
        if r.2 then
          { session := none, retry := none, sent := [.sms .tooManyStartOver],
            ret := retError "Too many retries" }
        else
          { session := some s, retry := some r.1, sent := [.sms .invalidSelection],
            ret := retError "Invalid selection" }
      if 1 ≤ v then
        match salons.get? (v.toNat - 1) with
        | some selected_salon =>
          if validateStateTransition s.state .service_selection then
            show_services env
              { s with state := .service_selection, selected_salon := some selected_salon }
              retry
          else
            { session := none, retry := none, sent := [.sms .invalidTransitionTryHi],
              ret := retError "Invalid state transition" }
        | none => invalid
      else invalid

/-- BookingService.handle-service-selection-state.  The reprompt branches
return a message dictionary without sending anything, and retry exhaustion
re-shows the service list instead of resetting. -/
def handle_service_selection_state (env : Env) (s : Session) (retry : Option Nat)
    (message : String) : StepResult :=
  match parseInt message with
  | none =>
    let r := incrementRetry retry
    if r.2 then show_services env s (some r.1)
    else
      { session := some s, retry := some r.1, sent := [],
        ret := { message := some "Please enter a valid number." } }
  | some v =>
    let services := s.services.getD []
    if services.isEmpty then show_services env s retry
    else
      let invalid : StepResult :=
        let r := incrementRetry retry
        if r.2 then show_services env s (some r.1)
        else
          { session := some s, retry := some r.1, sent := [],
            ret := { message := some "Invalid selection. Please choose a number from the list." } }
      if 1 ≤ v then
        match services.get? (v.toNat - 1) with
        | some selected_service =>
          if validateStateTransition s.state .expert_selection then
            show_experts env
              { s with state := .expert_selection, selected_service := some selected_service }
              retry
          else
            { session := none, retry := none, sent := [],
              ret := { message := some "Invalid state transition. Please send hi to start over." } }
        | none => invalid
      else invalid

/-- BookingService.handle-expert-selection-state: same shape as the service
handler, advancing to date selection. -/
def handle_expert_selection_state (env : Env) (s : Session) (retry : Option Nat)
    (message : String) : StepResult :=
  match parseInt message with
  | none =>
    let r := incrementRetry retry
    if r.2 then show_experts env s (some r.1)
    else
      { session := some s, retry := some r.1, sent := [],
        ret := { message := some "Please enter a valid number." } }
  | some v =>
    let experts := s.experts.getD []
    if experts.isEmpty then show_experts env s retry
    else
      let invalid : StepResult :=
        let r := incrementRetry retry
        if r.2 then show_experts env s (some r.1)
        else
          { session := some s, retry := some r.1, sent := [],
            ret := { message := some "Invalid selection. Please choose a number from the list." } }
      if 1 ≤ v then
        match experts.get? (v.toNat - 1) with
        | some selected_expert =>
          if validateStateTransition s.state .date_selection then
            show_available_dates env
              { s with state := .date_selection, selected_expert := some selected_expert }
              retry
          else
            { session := none, retry := none, sent := [],
              ret := { message := some "Invalid state transition. Please send hi to start over." } }
        | none => invalid
      else invalid

/-- BookingService.handle-date-selection-state. -/
def handle_date_selection_state (env : Env) (s : Session) (retry : Option Nat)
    (message : String) : StepResult :=
  match parseInt message with
  | none =>
    let r := incrementRetry retry
    if r.2 then
      { session := none, retry := none, sent := [.sms .tooManyStartOver],
        ret := retError "Too many retries" }
    else
      { session := some s, retry := some r.1, sent := [.sms .enterValidNumber],
        ret := retError "Invalid number format" }
  | some v =>
    let dates := s.available_dates.getD []
    if dates.isEmpty then show_available_dates env s retry
    else
      let invalid : StepResult :=
        let r := incrementRetry retry
        if r.2 then
          { session := none, retry := none, sent := [.sms .tooManyStartOver],
            ret := retError "Too many retries" }
        else
          { session := some s, retry := some r.1, sent := [.sms .invalidSelection],
            ret := retError "Invalid selection" }
      if 1 ≤ v then
        match dates.get? (v.toNat - 1) with
        | some selected_date =>
          if validateStateTransition s.state .time_selection then
            show_available_times env
              { s with state := .time_selection, selected_date := some selected_date }
              retry
          else
            { session := none, retry := none, sent := [.sms .invalidTransitionTryHi],
              ret := retError "Invalid state transition" }
        | none => invalid
      else invalid

/-- BookingService.handle-time-selection-state: a valid pick sets state to
confirmation, appends the assembled cart item to selected_services, and shows
the confirmation prompt; a missing selection field is the KeyError path. -/
def handle_time_selection_state (env : Env) (s : Session) (retry : Option Nat)
    (message : String) : StepResult :=
  match parseInt message with
  | none =>
    let r := incrementRetry retry
    if r.2 then
      { session := none, retry := none, sent := [.sms .tooManySendHi],
        ret := retError "Too many retries" }
    else
      { session := some s, retry := some r.1, sent := [.sms .enterValidNumber],
        ret := retError "Invalid number format" }
  | some v =>
    let time_slots := s.available_time_slots.getD []
    if time_slots.isEmpty then show_available_times env s retry
    else
      let invalid : StepResult :=
        let r := incrementRetry retry
        if r.2 then
          { session := none, retry := none, sent := [.sms .tooManySendHi],
            ret := retError "Too many retries" }
        else
          { session := some s, retry := some r.1, sent := [.sms .invalidSelection],
            ret := retError "Invalid selection" }
      if 1 ≤ v then
        match time_slots.get? (v.toNat - 1) with
        | some selected_slot =>
          match s.selected_salon, s.selected_service, s.selected_expert, s.selected_date with
          | some sal, some svc, some ex, some dt =>
            let item : CartItem :=
              { salon := sal, service := svc, expert := ex, date := dt,
                time_slot := selected_slot }
            show_confirmation
              { s with state := .confirmation,
                       selected_services := some (s.selected_services.getD [] ++ [item]) }
              retry
          | _, _, _, _ =>
            { session := none, retry := none, sent := [.sms .somethingWentWrongSendHi],
              ret := retError "exc" }
        | none => invalid
      else invalid

/-- The required fields of the AppointmentCreate pydantic model
(schemas/appointment.py: salon_id, user, service, appointment_date and
appointment_time carry no default; expert and notes are optional). -/
def appointmentCreateRequiredFields : List String :=
  ["salon_id", "user", "service", "appointment_date", "appointment_time"]

/-- The keyword arguments the confirmation handler passes to
AppointmentCreate (booking_service.py lines 879-886). -/
def appointmentCreateSuppliedKeywords : List String :=
  ["user_id", "salon_id", "service_id", "expert_id", "appointment_date", "appointment_time"]

/-- Pydantic construction succeeds only when every required field is among
the supplied keywords; a missing required field raises ValidationError. -/
def appointmentCreateOk : Bool :=
  appointmentCreateRequiredFields.all (fun f => appointmentCreateSuppliedKeywords.contains f)

/-- The commit loop of handle-confirmation-state on confirm: per item, in
list order, parse the slot labels and the date (a failure raises before
anything else), then construct the AppointmentCreate model — whose pydantic
validation raises unless every required schema field was supplied — and only
then request creation from the collaborator; any raise aborts the loop.
Returns the items for which creation was requested from the collaborator,
the items actually created, and whether the whole loop succeeded. -/
def commitItems (env : Env) (uid : String) :
    List CartItem → List CartItem × List CartItem × Bool
  | [] => ([], [], true)
  | it :: rest =>
    match parse12h it.time_slot.start_time, parse12h it.time_slot.end_time,
        parseDate it.date with
    | some _, some _, some _ =>
      if appointmentCreateOk then
        match env.create_appointment uid it with
        | .ok _ =>
          let r := commitItems env uid rest
          (it :: r.1, it :: r.2.1, r.2.2)
        | .error _ => ([it], [], false)
      else ([], [], false)
    | _, _, _ => ([], [], false)

/-- BookingService.handle-confirmation-state. -/
def handle_confirmation_state (env : Env) (s : Session) (retry : Option Nat)
    (message0 : String) : StepResult :=
  let message := pyStrip (pyLower message0)
  let selected_services := s.selected_services.getD []
  if message = "confirm" then
    match selected_services, s.user_id with
    | [], _ =>
      { session := none, retry := none, sent := [.sms (.allConfirmed [])],
        ret := { status := some "success", message := some "All bookings confirmed" } }
    | _ :: _, none =>
      { session := none, retry := none, sent := [.sms .appointmentsError],
        ret := retError "exc" }
    | _ :: _, some uid =>
      let r := commitItems env uid selected_services
      if r.2.2 then
        { session := none, retry := none, sent := [.sms (.allConfirmed selected_services)],
          apptRequests := r.1, apptCreated := r.2.1,
          ret := { status := some "success", message := some "All bookings confirmed" } }
      else
        { session := none, retry := none, sent := [.sms .appointmentsError],
          apptRequests := r.1, apptCreated := r.2.1,
          ret := retError "exc" }
  else if message = "add more" ∧ selected_services.length < 5 then
    show_services env { s with state := .service_selection } retry
  else if message = "cancel" then
    { session := none, retry := none, sent := [.sms .cancelled],
      ret := { status := some "success", message := some "Booking cancelled" } }
  else
    let r := incrementRetry retry
    if r.2 then
      { session := none, retry := none, sent := [.sms .tooManyStartOver],
        ret := retError "Too many retries" }
    else
      { session := some s, retry := some r.1,
        sent := [.sms (if selected_services.length < 5 then .invalidConfirmAdd
                       else .invalidConfirmNoAdd)],
        ret := retError "Invalid confirmation response" }

/-- BookingService.handle-feedback-state. -/
def handle_feedback_state (env : Env) (s : Session) (retry : Option Nat)
    (message : String) : StepResult :=
  let parts := splitFirst message '-'
  let ratingOk := match parseInt parts.1 with
    | none => false
    | some rating => 1 ≤ rating ∧ rating ≤ 5
  if !ratingOk then
    let r := incrementRetry retry
    if r.2 then
      { session := none, retry := none, sent := [.sms .feedbackTooMany],
        ret := retError "Too many retries" }
    else
      { session := some s, retry := some r.1, sent := [.sms .feedbackInvalidRating],
        ret := retError "Invalid rating format" }
  else
    match s.appointment_id with
    | none =>
      { session := none, retry := none, sent := [.sms .feedbackCantProcess],
        ret := retError "No appointment ID in state" }
    | some appointment_id =>
      match env.get_appointment appointment_id with
      | .error _ =>
        { session := none, retry := none, sent := [.sms .feedbackCantSave],
          ret := retError "exc" }
      | .ok none =>
        { session := none, retry := none, sent := [.sms .feedbackNotFound],
          ret := retError "Appointment not found" }
      | .ok (some _) =>
        { session := none, retry := none, sent := [.sms .feedbackThanks],
          ret := retSuccess }

def greetingTokens : List String := ["hi", "hello", "hey", "start"]

/-- The fresh session created by a greeting, a first contact, or a timeout. -/
def freshWelcome (env : Env) (uid : Option String) : Session :=
  { state := .welcome, user_id := uid, last_message_time := env.now }

/-- The per-state dispatch of handle-incoming-message, entered after the
global commands, existence, and timeout checks, with last_message_time
already updated on the session. -/
def dispatchState (env : Env) (s : Session) (retry : Option Nat)
    (message : String) : StepResult :=
  match s.state with
  | .welcome =>
    if pyUpper message = "LOGIN" then
      match env.get_user_by_phone with
      | .error _ =>
        { session := none, retry := none, sent := [.sms .loginError],
          ret := retError "exc" }
      | .ok none =>
        { session := some { s with state := .registration }, retry := retry,
          sent := [.registrationPrompt], ret := retSuccess }
      | .ok (some uid) =>
        show_salons env { s with state := .salon_selection, user_id := some uid } retry
    else if pyUpper message = "REGISTER" then
      { session := some { s with state := .registration }, retry := retry,
        sent := [.registrationPrompt], ret := retSuccess }
    else
      { session := some s, retry := retry, sent := [.welcomeMsg], ret := retSuccess }
  | .registration => handle_registration_state env s retry message
  | .salon_selection => handle_salon_selection_state env s retry message
  | .service_selection => handle_service_selection_state env s retry message
  | .expert_selection => handle_expert_selection_state env s retry message
  | .date_selection => handle_date_selection_state env s retry message
  | .time_selection => handle_time_selection_state env s retry message
  | .confirmation => handle_confirmation_state env s retry message
  | .feedback => handle_feedback_state env s retry message

/-- Everything after the two global commands in handle-incoming-message:
session initialization for unknown recipients, the 30-minute timeout check,
the last_message_time update, and the per-state dispatch. -/
def afterGlobal (env : Env) (cfg : Cfg) (message : String) : StepResult :=
  match cfg.session with
  | none =>
    { session := some (freshWelcome env none), retry := cfg.retry,
      sent := [.welcomeMsg], ret := retSuccess }
  | some s =>
    if env.now - s.last_message_time > 30 then
      { session := some (freshWelcome env none), retry := none,
        sent := [.welcomeMsg], ret := retSuccess }
    else
      dispatchState env { s with last_message_time := env.now } cfg.retry message

/-- BookingService.handle-incoming-message for one recipient: the greeting
and cancel short-circuits compare the lowercased, untrimmed body; everything
else goes through afterGlobal. -/
def handleIncomingMessage (env : Env) (cfg : Cfg) (message : String) : StepResult :=
  if greetingTokens.contains (pyLower message) then
    let uid := match env.get_user_by_phone with
      | .ok (some u) => some u
      | _ => none
    { session := some (freshWelcome env uid), retry := none,
      sent := [.welcomeMsg], ret := retSuccess }
  else if pyLower message = "cancel" then
    { session := none, retry := none, sent := [.sms .cancelled], ret := retSuccess }
  else afterGlobal env cfg message

/-- Feeding a list of inbound messages one call at a time, tracking the
recipient's table entries between calls. -/
def runMessages (env : Env) : Cfg → List String → Cfg
  | cfg, [] => cfg
  | cfg, m :: ms =>
    let r := handleIncomingMessage env cfg m
    runMessages env { session := r.session, retry := r.retry } ms

/-! Concrete fixtures used by witnesses and counterexamples. -/

def svc1 : Service := { service_id := "sv1", name := "Cut", cost := 10, duration := 30 }

def sal1 : Salon := { salon_id := "sa1", name := "Salon One", address := "Addr 1" }

def exp1 : Expert := { expert_id := "ex1", name := "Alice" }

def slot1 : Slot := { start_time := "09:00 AM", end_time := "10:00 AM" }

def item1 : CartItem :=
  { salon := sal1, service := svc1, expert := exp1, date := "2025-10-20", time_slot := slot1 }

def allDays : List (String × List Bool) :=
  (List.range 7).map (fun i => (toString i, List.replicate 13 true))

def envA : Env := {
  now := 10, today := 100, date_of := fun _ => "2025-10-21",
  get_user_by_phone := .ok (some "u1"),
  get_all_salons := .ok [sal1],
  get_salon_services := fun _ => .ok ["sv1"],
  get_service := fun _ => .ok (some svc1),
  get_salon_experts := fun _ => .ok ["ex1"],
  get_expert_availability := fun _ _ => some { is_available := true, days := allDays },
  appointments := [],
  create_appointment := fun _ _ => .ok "ap1",
  create_user := fun _ _ _ _ => .ok "u1",
  get_appointment := fun _ => .ok (some ()) }

/-! Characterization lemmas for the list-presentation steps: when they leave
a session behind, which fields changed. -/

theorem show_salons_session (env : Env) (s : Session) (r : Option Nat) :
    ∀ s1, (show_salons env s r).session = some s1 →
      s1.state = s.state ∧ s1.selected_services = s.selected_services := by
  intro s1 h
  unfold show_salons at h
  split at h
  · simp at h
  · split at h <;> (simp at h; subst h; exact ⟨rfl, rfl⟩)

theorem show_services_session (env : Env) (s : Session) (r : Option Nat) :
    ∀ s1, (show_services env s r).session = some s1 →
      s1.state = s.state ∧ s1.selected_services = s.selected_services := by
  intro s1 h
  unfold show_services at h
  split at h
  · simp at h
  · split at h
    · simp at h
    · split at h
      · simp at h
      · simp only [] at h
        split at h
        · simp at h
        · simp at h; subst h; exact ⟨rfl, rfl⟩

theorem show_experts_session (env : Env) (s : Session) (r : Option Nat) :
    ∀ s1, (show_experts env s r).session = some s1 →
      s1.state = s.state ∧ s1.selected_services = s.selected_services := by
  intro s1 h
  unfold show_experts at h
  split at h
  · simp at h
  · split at h
    · simp at h
    · split at h
      · simp at h
      · simp at h

theorem show_available_dates_session (env : Env) (s : Session) (r : Option Nat) :
    ∀ s1, (show_available_dates env s r).session = some s1 →
      s1.state = s.state ∧ s1.selected_services = s.selected_services := by
  intro s1 h
  unfold show_available_dates at h
  simp at h; subst h; exact ⟨rfl, rfl⟩

theorem show_available_times_session (env : Env) (s : Session) (r : Option Nat) :
    ∀ s1, (show_available_times env s r).session = some s1 →
      (s1.state = .expert_selection ∨ s1.state = .date_selection ∨
        s1.state = .time_selection) ∧ s1.selected_services = s.selected_services := by
  intro s1 h
  unfold show_available_times at h
  split at h
  case _ salon expert ymd =>
    split at h
    · rcases show_experts_session env _ r s1 h with ⟨h1, h2⟩
      exact ⟨Or.inl h1, h2⟩
    · split at h
      · rcases show_experts_session env _ r s1 h with ⟨h1, h2⟩
        exact ⟨Or.inl h1, h2⟩
      · simp only [] at h
        split at h
        · rcases show_available_dates_session env _ r s1 h with ⟨h1, h2⟩
          exact ⟨Or.inr (Or.inl h1), h2⟩
        · split at h
          · simp at h
          · split at h
            · rcases show_available_dates_session env _ r s1 h with ⟨h1, h2⟩
              exact ⟨Or.inr (Or.inl h1), h2⟩
            · simp at h; subst h; exact ⟨Or.inr (Or.inr rfl), rfl⟩
  · simp at h

theorem show_confirmation_session (s : Session) (r : Option Nat) :
    ∀ s1, (show_confirmation s r).session = some s1 → s1 = s := by
  intro s1 h
  unfold show_confirmation at h
  simp only [] at h
  split at h
  · simp at h
  · split at h
    · split at h <;> (simp at h; exact h.symm)
    · simp at h

/-! Retry-entry characterization: the list-presentation steps either pass the
retry entry through unchanged or remove it with the session. -/

theorem show_salons_retry (env : Env) (s : Session) (r : Option Nat) :
    (show_salons env s r).retry = r ∨ (show_salons env s r).retry = none := by
  unfold show_salons
  split
  · exact Or.inr rfl
  · split
    · exact Or.inl rfl
    · exact Or.inl rfl

theorem show_services_retry (env : Env) (s : Session) (r : Option Nat) :
    (show_services env s r).retry = r ∨ (show_services env s r).retry = none := by
  unfold show_services
  split
  · exact Or.inr rfl
  · split
    · exact Or.inr rfl
    · split
      · exact Or.inr rfl
      · simp only []
        split
        · exact Or.inr rfl
        · exact Or.inl rfl

theorem show_experts_retry (env : Env) (s : Session) (r : Option Nat) :
    (show_experts env s r).retry = r ∨ (show_experts env s r).retry = none := by
  unfold show_experts
  split
  · exact Or.inr rfl
  · split
    · exact Or.inr rfl
    · split
      · exact Or.inr rfl
      · exact Or.inr rfl

theorem show_experts_resets (env : Env) (s : Session) (r : Option Nat) :
    (show_experts env s r).session = none ∧ (show_experts env s r).retry = none := by
  unfold show_experts
  split
  · exact ⟨rfl, rfl⟩
  · split
    · exact ⟨rfl, rfl⟩
    · split
      · exact ⟨rfl, rfl⟩
      · exact ⟨rfl, rfl⟩

theorem show_available_dates_retry (env : Env) (s : Session) (r : Option Nat) :
    (show_available_dates env s r).retry = r := rfl

theorem show_available_times_retry (env : Env) (s : Session) (r : Option Nat) :
    (show_available_times env s r).retry = r ∨ (show_available_times env s r).retry = none := by
  unfold show_available_times
  split
  · split
    · exact show_experts_retry env _ r
    · split
      · exact show_experts_retry env _ r
      · simp only []
        split
        · exact Or.inl (show_available_dates_retry env { s with state := BState.date_selection } r)
        · split
          · exact Or.inr rfl
          · split
            · exact Or.inl (show_available_dates_retry env { s with state := BState.date_selection } r)
            · exact Or.inl rfl
  · exact Or.inr rfl

theorem show_confirmation_retry (s : Session) (r : Option Nat) :
    (show_confirmation s r).retry = r ∨ (show_confirmation s r).retry = none := by
  unfold show_confirmation
  simp only []
  split
  · exact Or.inr rfl
  · split
    · split
      · exact Or.inl rfl
      · exact Or.inl rfl
    · exact Or.inr rfl

/-! Session characterization of each state handler: when the call leaves a
session behind, how its state tag and cart relate to the incoming ones. -/

theorem reg_session (env : Env) (s : Session) (r : Option Nat) (m : String) :
    ∀ s1, (handle_registration_state env s r m).session = some s1 →
      (s1.state = s.state ∧ s1.selected_services = s.selected_services) ∨
      (s1.state = .salon_selection ∧ s1.selected_services = none) := by
  intro s1 h
  unfold handle_registration_state at h
  simp only [] at h
  split at h
  · simp at h; subst h; exact Or.inl ⟨rfl, rfl⟩
  · split at h
    · simp at h; subst h; exact Or.inl ⟨rfl, rfl⟩
    · split at h
      · simp at h; subst h; exact Or.inl ⟨rfl, rfl⟩
      · split at h
        · split at h
          · simp at h; subst h; exact Or.inl ⟨rfl, rfl⟩
          · split at h
            case _ nm em ad hnm hem had =>
              split at h
              · rcases show_salons_session env _ r s1 h with ⟨h1, h2⟩
                exact Or.inr ⟨h1, h2⟩
              · simp at h
            · simp at h
        · simp at h

theorem salon_session (env : Env) (s : Session) (r : Option Nat) (m : String) :
    ∀ s1, (handle_salon_selection_state env s r m).session = some s1 →
      s1.selected_services = s.selected_services ∧
      (s1.state = s.state ∨ s1.state = .service_selection) := by
  intro s1 h
  unfold handle_salon_selection_state at h
  split at h
  · simp only [] at h
    split at h
    · simp at h
    · simp at h; subst h; exact ⟨rfl, Or.inl rfl⟩
  · simp only [] at h
    split at h
    · rcases show_salons_session env s r s1 h with ⟨h1, h2⟩
      exact ⟨h2, Or.inl h1⟩
    · split at h
      · split at h
        · split at h
          · rcases show_services_session env _ r s1 h with ⟨h1, h2⟩
            exact ⟨h2, Or.inr h1⟩
          · simp at h
        · split at h
          · simp at h
          · simp at h; subst h; exact ⟨rfl, Or.inl rfl⟩
      · split at h
        · simp at h
        · simp at h; subst h; exact ⟨rfl, Or.inl rfl⟩

theorem service_session (env : Env) (s : Session) (r : Option Nat) (m : String) :
    ∀ s1, (handle_service_selection_state env s r m).session = some s1 →
      s1.selected_services = s.selected_services ∧
      (s1.state = s.state ∨ s1.state = .expert_selection) := by
  intro s1 h
  unfold handle_service_selection_state at h
  split at h
  · simp only [] at h
    split at h
    · rcases show_services_session env s _ s1 h with ⟨h1, h2⟩
      exact ⟨h2, Or.inl h1⟩
    · simp at h; subst h; exact ⟨rfl, Or.inl rfl⟩
  · simp only [] at h
    split at h
    · rcases show_services_session env s r s1 h with ⟨h1, h2⟩
      exact ⟨h2, Or.inl h1⟩
    · split at h
      · split at h
        · split at h
          · rcases show_experts_session env _ r s1 h with ⟨h1, h2⟩
            exact ⟨h2, Or.inr h1⟩
          · simp at h
        · split at h
          · rcases show_services_session env s _ s1 h with ⟨h1, h2⟩
            exact ⟨h2, Or.inl h1⟩
          · simp at h; subst h; exact ⟨rfl, Or.inl rfl⟩
      · split at h
        · rcases show_services_session env s _ s1 h with ⟨h1, h2⟩
          exact ⟨h2, Or.inl h1⟩
        · simp at h; subst h; exact ⟨rfl, Or.inl rfl⟩

theorem expert_session (env : Env) (s : Session) (r : Option Nat) (m : String) :
    ∀ s1, (handle_expert_selection_state env s r m).session = some s1 →
      s1.selected_services = s.selected_services ∧
      (s1.state = s.state ∨ s1.state = .date_selection) := by
  intro s1 h
  unfold handle_expert_selection_state at h
  split at h
  · simp only [] at h
    split at h
    · rcases show_experts_session env s _ s1 h with ⟨h1, h2⟩
      exact ⟨h2, Or.inl h1⟩
    · simp at h; subst h; exact ⟨rfl, Or.inl rfl⟩
  · simp only [] at h
    split at h
    · rcases show_experts_session env s r s1 h with ⟨h1, h2⟩
      exact ⟨h2, Or.inl h1⟩
    · split at h
      · split at h
        · split at h
          · rcases show_available_dates_session env _ r s1 h with ⟨h1, h2⟩
            exact ⟨h2, Or.inr h1⟩
          · simp at h
        · split at h
          · rcases show_experts_session env s _ s1 h with ⟨h1, h2⟩
            exact ⟨h2, Or.inl h1⟩
          · simp at h; subst h; exact ⟨rfl, Or.inl rfl⟩
      · split at h
        · rcases show_experts_session env s _ s1 h with ⟨h1, h2⟩
          exact ⟨h2, Or.inl h1⟩
        · simp at h; subst h; exact ⟨rfl, Or.inl rfl⟩

theorem date_session (env : Env) (s : Session) (r : Option Nat) (m : String) :
    ∀ s1, (handle_date_selection_state env s r m).session = some s1 →
      s1.selected_services = s.selected_services ∧
      (s1.state = s.state ∨ s1.state = .expert_selection ∨ s1.state = .date_selection ∨
        s1.state = .time_selection) := by
  intro s1 h
  unfold handle_date_selection_state at h
  split at h
  · simp only [] at h
    split at h
    · simp at h
    · simp at h; subst h; exact ⟨rfl, Or.inl rfl⟩
  · simp only [] at h
    split at h
    · rcases show_available_dates_session env s r s1 h with ⟨h1, h2⟩
      exact ⟨h2, Or.inl h1⟩
    · split at h
      · split at h
        · split at h
          · rcases show_available_times_session env _ r s1 h with ⟨h1, h2⟩
            rcases h1 with h1 | h1 | h1
            · exact ⟨h2, Or.inr (Or.inl h1)⟩
            · exact ⟨h2, Or.inr (Or.inr (Or.inl h1))⟩
            · exact ⟨h2, Or.inr (Or.inr (Or.inr h1))⟩
          · simp at h
        · split at h
          · simp at h
          · simp at h; subst h; exact ⟨rfl, Or.inl rfl⟩
      · split at h
        · simp at h
        · simp at h; subst h; exact ⟨rfl, Or.inl rfl⟩

theorem time_session (env : Env) (s : Session) (r : Option Nat) (m : String) :
    ∀ s1, (handle_time_selection_state env s r m).session = some s1 →
      (s1.selected_services = s.selected_services ∧
        (s1.state = s.state ∨ s1.state = .expert_selection ∨ s1.state = .date_selection ∨
          s1.state = .time_selection)) ∨
      (s1.state = .confirmation ∧
        ∃ it, s1.selected_services = some (s.selected_services.getD [] ++ [it])) := by
  intro s1 h
  unfold handle_time_selection_state at h
  split at h
  · simp only [] at h
    split at h
    · simp at h
    · simp at h; subst h; exact Or.inl ⟨rfl, Or.inl rfl⟩
  · simp only [] at h
    split at h
    · rcases show_available_times_session env s r s1 h with ⟨h1, h2⟩
      rcases h1 with h1 | h1 | h1
      · exact Or.inl ⟨h2, Or.inr (Or.inl h1)⟩
      · exact Or.inl ⟨h2, Or.inr (Or.inr (Or.inl h1))⟩
      · exact Or.inl ⟨h2, Or.inr (Or.inr (Or.inr h1))⟩
    · split at h
      · split at h
        · split at h
          case _ item sal svc ex dt hsal hsvc hex hdt =>
            have h2 := show_confirmation_session _ r s1 h
            subst h2
            exact Or.inr ⟨rfl, _, rfl⟩
          · simp at h
        · split at h
          · simp at h
          · simp at h; subst h; exact Or.inl ⟨rfl, Or.inl rfl⟩
      · split at h
        · simp at h
        · simp at h; subst h; exact Or.inl ⟨rfl, Or.inl rfl⟩

theorem confirmation_session (env : Env) (s : Session) (r : Option Nat) (m : String) :
    ∀ s1, (handle_confirmation_state env s r m).session = some s1 →
      s1 = s ∨
      (s1.state = .service_selection ∧ s1.selected_services = s.selected_services ∧
        (s.selected_services.getD []).length < 5) := by
  intro s1 h
  unfold handle_confirmation_state at h
  simp only [] at h
  split at h
  · split at h
    · simp at h
    · simp at h
    · split at h
      · simp at h
      · simp at h
  · split at h
    case _ hcond =>
      rcases show_services_session env _ r s1 h with ⟨h1, h2⟩
      exact Or.inr ⟨h1, h2, hcond.2⟩
    · split at h
      · simp at h
      · split at h
        · simp at h
        · simp at h; subst h; exact Or.inl rfl

theorem feedback_session (env : Env) (s : Session) (r : Option Nat) (m : String) :
    ∀ s1, (handle_feedback_state env s r m).session = some s1 → s1 = s := by
  intro s1 h
  unfold handle_feedback_state at h
  simp only [] at h
  split at h
  · split at h
    · simp at h
    · simp at h; exact h.symm
  · split at h
    · simp at h
    · split at h
      · simp at h
      · simp at h
      · simp at h

/-- The only three things one call can do to the retry entry: leave it,
remove it, or bump it by one. -/
def retryStep (r0 r1 : Option Nat) : Prop :=
  r1 = r0 ∨ r1 = none ∨ r1 = some (r0.getD 0 + 1)

theorem reg_retry (env : Env) (s : Session) (r : Option Nat) (m : String) :
    retryStep r (handle_registration_state env s r m).retry := by
  unfold handle_registration_state
  simp only []
  split
  · exact Or.inl rfl
  · split
    · exact Or.inl rfl
    · split
      · exact Or.inl rfl
      · split
        · split
          · exact Or.inl rfl
          · split
            · split
              · rcases show_salons_retry env _ r with h | h
                · exact Or.inl h
                · exact Or.inr (Or.inl h)
              · exact Or.inr (Or.inl rfl)
            · exact Or.inr (Or.inl rfl)
        · exact Or.inr (Or.inl rfl)

theorem salon_retry (env : Env) (s : Session) (r : Option Nat) (m : String) :
    retryStep r (handle_salon_selection_state env s r m).retry := by
  unfold handle_salon_selection_state
  split
  · simp only []
    split
    · exact Or.inr (Or.inl rfl)
    · exact Or.inr (Or.inr rfl)
  · simp only []
    split
    · rcases show_salons_retry env s r with h | h
      · exact Or.inl h
      · exact Or.inr (Or.inl h)
    · split
      · split
        · split
          · rcases show_services_retry env _ r with h | h
            · exact Or.inl h
            · exact Or.inr (Or.inl h)
          · exact Or.inr (Or.inl rfl)
        · split
          · exact Or.inr (Or.inl rfl)
          · exact Or.inr (Or.inr rfl)
      · split
        · exact Or.inr (Or.inl rfl)
        · exact Or.inr (Or.inr rfl)

theorem service_retry (env : Env) (s : Session) (r : Option Nat) (m : String) :
    retryStep r (handle_service_selection_state env s r m).retry := by
  unfold handle_service_selection_state
  split
  · simp only []
    split
    · rcases show_services_retry env s (some (r.getD 0 + 1)) with h | h
      · exact Or.inr (Or.inr h)
      · exact Or.inr (Or.inl h)
    · exact Or.inr (Or.inr rfl)
  · simp only []
    split
    · rcases show_services_retry env s r with h | h
      · exact Or.inl h
      · exact Or.inr (Or.inl h)
    · split
      · split
        · split
          · rcases show_experts_retry env _ r with h | h
            · exact Or.inl h
            · exact Or.inr (Or.inl h)
          · exact Or.inr (Or.inl rfl)
        · split
          · rcases show_services_retry env s (some (r.getD 0 + 1)) with h | h
            · exact Or.inr (Or.inr h)
            · exact Or.inr (Or.inl h)
          · exact Or.inr (Or.inr rfl)
      · split
        · rcases show_services_retry env s (some (r.getD 0 + 1)) with h | h
          · exact Or.inr (Or.inr h)
          · exact Or.inr (Or.inl h)
        · exact Or.inr (Or.inr rfl)

theorem expert_retry (env : Env) (s : Session) (r : Option Nat) (m : String) :
    retryStep r (handle_expert_selection_state env s r m).retry := by
  unfold handle_expert_selection_state
  split
  · simp only []
    split
    · rcases show_experts_retry env s (some (r.getD 0 + 1)) with h | h
      · exact Or.inr (Or.inr h)
      · exact Or.inr (Or.inl h)
    · exact Or.inr (Or.inr rfl)
  · simp only []
    split
    · rcases show_experts_retry env s r with h | h
      · exact Or.inl h
      · exact Or.inr (Or.inl h)
    · split
      · split
        · split
          · exact Or.inl (show_available_dates_retry env _ r)
          · exact Or.inr (Or.inl rfl)
        · split
          · rcases show_experts_retry env s (some (r.getD 0 + 1)) with h | h
            · exact Or.inr (Or.inr h)
            · exact Or.inr (Or.inl h)
          · exact Or.inr (Or.inr rfl)
      · split
        · rcases show_experts_retry env s (some (r.getD 0 + 1)) with h | h
          · exact Or.inr (Or.inr h)
          · exact Or.inr (Or.inl h)
        · exact Or.inr (Or.inr rfl)

theorem date_retry (env : Env) (s : Session) (r : Option Nat) (m : String) :
    retryStep r (handle_date_selection_state env s r m).retry := by
  unfold handle_date_selection_state
  split
  · simp only []
    split
    · exact Or.inr (Or.inl rfl)
    · exact Or.inr (Or.inr rfl)
  · simp only []
    split
    · exact Or.inl (show_available_dates_retry env s r)
    · split
      · split
        · split
          · rcases show_available_times_retry env _ r with h | h
            · exact Or.inl h
            · exact Or.inr (Or.inl h)
          · exact Or.inr (Or.inl rfl)
        · split
          · exact Or.inr (Or.inl rfl)
          · exact Or.inr (Or.inr rfl)
      · split
        · exact Or.inr (Or.inl rfl)
        · exact Or.inr (Or.inr rfl)

theorem time_retry (env : Env) (s : Session) (r : Option Nat) (m : String) :
    retryStep r (handle_time_selection_state env s r m).retry := by
  unfold handle_time_selection_state
  split
  · simp only []
    split
    · exact Or.inr (Or.inl rfl)
    · exact Or.inr (Or.inr rfl)
  · simp only []
    split
    · rcases show_available_times_retry env s r with h | h
      · exact Or.inl h
      · exact Or.inr (Or.inl h)
    · split
      · split
        · split
          · rcases show_confirmation_retry _ r with h | h
            · exact Or.inl h
            · exact Or.inr (Or.inl h)
          · exact Or.inr (Or.inl rfl)
        · split
          · exact Or.inr (Or.inl rfl)
          · exact Or.inr (Or.inr rfl)
      · split
        · exact Or.inr (Or.inl rfl)
        · exact Or.inr (Or.inr rfl)

theorem confirmation_retry (env : Env) (s : Session) (r : Option Nat) (m : String) :
    retryStep r (handle_confirmation_state env s r m).retry := by
  unfold handle_confirmation_state
  simp only []
  split
  · split
    · exact Or.inr (Or.inl rfl)
    · exact Or.inr (Or.inl rfl)
    · split
      · exact Or.inr (Or.inl rfl)
      · exact Or.inr (Or.inl rfl)
  · split
    · rcases show_services_retry env _ r with h | h
      · exact Or.inl h
      · exact Or.inr (Or.inl h)
    · split
      · exact Or.inr (Or.inl rfl)
      · split
        · exact Or.inr (Or.inl rfl)
        · exact Or.inr (Or.inr rfl)

theorem feedback_retry (env : Env) (s : Session) (r : Option Nat) (m : String) :
    retryStep r (handle_feedback_state env s r m).retry := by
  unfold handle_feedback_state
  simp only []
  split
  · split
    · exact Or.inr (Or.inl rfl)
    · exact Or.inr (Or.inr rfl)
  · split
    · exact Or.inr (Or.inl rfl)
    · split
      · exact Or.inr (Or.inl rfl)
      · exact Or.inr (Or.inl rfl)
      · exact Or.inr (Or.inl rfl)

theorem dispatch_retry (env : Env) (s : Session) (r : Option Nat) (m : String) :
    retryStep r (dispatchState env s r m).retry := by
  unfold dispatchState
  cases s.state
  case welcome =>
    cases henv : env.get_user_by_phone
    case error =>
      simp only [henv]
      split
      · exact Or.inr (Or.inl rfl)
      · split
        · exact Or.inl rfl
        · exact Or.inl rfl
    case ok o =>
      cases o
      case none =>
        simp only [henv]
        split
        · exact Or.inl rfl
        · split
          · exact Or.inl rfl
          · exact Or.inl rfl
      case some uid =>
        simp only [henv]
        split
        · rcases show_salons_retry env _ r with h | h
          · exact Or.inl h
          · exact Or.inr (Or.inl h)
        · split
          · exact Or.inl rfl
          · exact Or.inl rfl
  case registration => exact reg_retry env s r m
  case salon_selection => exact salon_retry env s r m
  case service_selection => exact service_retry env s r m
  case expert_selection => exact expert_retry env s r m
  case date_selection => exact date_retry env s r m
  case time_selection => exact time_retry env s r m
  case confirmation => exact confirmation_retry env s r m
  case feedback => exact feedback_retry env s r m

theorem handleIncomingMessage_retry (env : Env) (cfg : Cfg) (m : String) :
    retryStep cfg.retry (handleIncomingMessage env cfg m).retry := by
  unfold handleIncomingMessage
  split
  · exact Or.inr (Or.inl rfl)
  · split
    · exact Or.inr (Or.inl rfl)
    · unfold afterGlobal
      split
      · exact Or.inl rfl
      · split
        · exact Or.inr (Or.inl rfl)
        · exact dispatch_retry env _ cfg.retry m

/-- The transitions one call of the engine can actually perform on a kept
session: restart to welcome, stay in place, a tabled transition, the add-more
jump confirmation to service_selection, and the backward routes out of the
time-slot step. -/
def amendedReach (a b : BState) : Bool :=
  b == .welcome || b == a || validateStateTransition a b ||
  (a == .confirmation && b == .service_selection) ||
  (a == .time_selection && (b == .date_selection || b == .expert_selection)) ||
  (a == .date_selection && b == .expert_selection)

theorem amendedReach_self (a : BState) : amendedReach a a = true := by
  cases a <;> rfl

theorem amendedReach_welcome (a : BState) : amendedReach a .welcome = true := by
  cases a <;> rfl

def cartLen (s : Session) : Nat := (s.selected_services.getD []).length

/-- Cart-bound invariant: at most 5 items, and strictly fewer than 5 in
every state other than confirmation. -/
def cartInv (s : Session) : Prop :=
  cartLen s ≤ 5 ∧ (s.state ≠ .confirmation → cartLen s < 5)

theorem dispatch_session_states (env : Env) (s : Session) (r : Option Nat) (m : String) :
    ∀ s1, (dispatchState env s r m).session = some s1 →
      amendedReach s.state s1.state = true := by
  intro s1 h
  unfold dispatchState at h
  cases hs : s.state
  all_goals rw [hs] at h
  case welcome =>
    simp only [] at h
    split at h
    · cases henv : env.get_user_by_phone
      case error =>
        rw [henv] at h; simp at h
      case ok o =>
        cases o
        case none =>
          rw [henv] at h; simp at h; subst h; rfl
        case some uid =>
          rw [henv] at h
          rcases show_salons_session env _ r s1 h with ⟨h1, _⟩
          rw [h1]; rfl
    · split at h
      · simp at h; subst h; rfl
      · simp at h; subst h; rw [hs]; rfl
  case registration =>
    rcases reg_session env s r m s1 h with ⟨h1, _⟩ | ⟨h1, _⟩
    · rw [h1, hs]; rfl
    · rw [h1]; rfl
  case salon_selection =>
    rcases salon_session env s r m s1 h with ⟨_, h1 | h1⟩
    · rw [h1, hs]; rfl
    · rw [h1]; rfl
  case service_selection =>
    rcases service_session env s r m s1 h with ⟨_, h1 | h1⟩
    · rw [h1, hs]; rfl
    · rw [h1]; rfl
  case expert_selection =>
    rcases expert_session env s r m s1 h with ⟨_, h1 | h1⟩
    · rw [h1, hs]; rfl
    · rw [h1]; rfl
  case date_selection =>
    rcases date_session env s r m s1 h with ⟨_, h1 | h1 | h1 | h1⟩
    · rw [h1, hs]; rfl
    · rw [h1]; rfl
    · rw [h1]; rfl
    · rw [h1]; rfl
  case time_selection =>
    rcases time_session env s r m s1 h with ⟨_, h1 | h1 | h1 | h1⟩ | ⟨h1, _⟩
    · rw [h1, hs]; rfl
    · rw [h1]; rfl
    · rw [h1]; rfl
    · rw [h1]; rfl
    · rw [h1]; rfl
  case confirmation =>
    rcases confirmation_session env s r m s1 h with h1 | ⟨h1, _⟩
    · rw [h1, hs]; rfl
    · rw [h1]; rfl
  case feedback =>
    have h1 := feedback_session env s r m s1 h
    rw [h1, hs]; rfl

theorem cartInv_of_lt {s1 : Session} (h : cartLen s1 < 5) : cartInv s1 :=
  ⟨Nat.le_of_lt h, fun _ => h⟩

theorem dispatch_cartInv (env : Env) (s : Session) (r : Option Nat) (m : String) :
    cartInv s → ∀ s1, (dispatchState env s r m).session = some s1 → cartInv s1 := by
  intro hinv s1 h
  unfold dispatchState at h
  cases hs : s.state
  all_goals rw [hs] at h
  case welcome =>
    have hlt : cartLen s < 5 := hinv.2 (by rw [hs]; decide)
    simp only [] at h
    split at h
    · cases henv : env.get_user_by_phone
      case error => rw [henv] at h; simp at h
      case ok o =>
        cases o
        case none =>
          rw [henv] at h; simp at h; subst h
          exact cartInv_of_lt hlt
        case some uid =>
          rw [henv] at h
          rcases show_salons_session env _ r s1 h with ⟨_, h2⟩
          have hcl : cartLen s1 = cartLen s := by unfold cartLen; rw [h2]
          exact cartInv_of_lt (by rw [hcl]; exact hlt)
    · split at h
      · simp at h; subst h; exact cartInv_of_lt hlt
      · simp at h; subst h; exact cartInv_of_lt hlt
  case registration =>
    have hlt : cartLen s < 5 := hinv.2 (by rw [hs]; decide)
    rcases reg_session env s r m s1 h with ⟨_, h2⟩ | ⟨_, h2⟩
    · have hcl : cartLen s1 = cartLen s := by unfold cartLen; rw [h2]
      exact cartInv_of_lt (by rw [hcl]; exact hlt)
    · exact cartInv_of_lt (by unfold cartLen; rw [h2]; decide)
  case salon_selection =>
    have hlt : cartLen s < 5 := hinv.2 (by rw [hs]; decide)
    rcases salon_session env s r m s1 h with ⟨h2, _⟩
    have hcl : cartLen s1 = cartLen s := by unfold cartLen; rw [h2]
    exact cartInv_of_lt (by rw [hcl]; exact hlt)
  case service_selection =>
    have hlt : cartLen s < 5 := hinv.2 (by rw [hs]; decide)
    rcases service_session env s r m s1 h with ⟨h2, _⟩
    have hcl : cartLen s1 = cartLen s := by unfold cartLen; rw [h2]
    exact cartInv_of_lt (by rw [hcl]; exact hlt)
  case expert_selection =>
    have hlt : cartLen s < 5 := hinv.2 (by rw [hs]; decide)
    rcases expert_session env s r m s1 h with ⟨h2, _⟩
    have hcl : cartLen s1 = cartLen s := by unfold cartLen; rw [h2]
    exact cartInv_of_lt (by rw [hcl]; exact hlt)
  case date_selection =>
    have hlt : cartLen s < 5 := hinv.2 (by rw [hs]; decide)
    rcases date_session env s r m s1 h with ⟨h2, _⟩
    have hcl : cartLen s1 = cartLen s := by unfold cartLen; rw [h2]
    exact cartInv_of_lt (by rw [hcl]; exact hlt)
  case time_selection =>
    have hlt : cartLen s < 5 := hinv.2 (by rw [hs]; decide)
    rcases time_session env s r m s1 h with ⟨h2, _⟩ | ⟨h1, it, h2⟩
    · have hcl : cartLen s1 = cartLen s := by unfold cartLen; rw [h2]
      exact cartInv_of_lt (by rw [hcl]; exact hlt)
    · have hc1 : cartLen s1 = cartLen s + 1 := by
        unfold cartLen; rw [h2]; simp
      exact ⟨by omega, fun hne => absurd h1 hne⟩
  case confirmation =>
    rcases confirmation_session env s r m s1 h with h1 | ⟨_, h2, h3⟩
    · rw [h1]; exact hinv
    · have hcl : cartLen s1 = cartLen s := by unfold cartLen; rw [h2]
      exact cartInv_of_lt (by rw [hcl]; exact h3)
  case feedback =>
    have h1 := feedback_session env s r m s1 h
    rw [h1]; exact hinv

theorem step_session_states (env : Env) (cfg : Cfg) (m : String) :
    ∀ s0 s1, cfg.session = some s0 →
      (handleIncomingMessage env cfg m).session = some s1 →
      amendedReach s0.state s1.state = true := by
  intro s0 s1 h0 h
  unfold handleIncomingMessage at h
  split at h
  · simp [freshWelcome] at h
    rw [h.symm]
    exact amendedReach_welcome _
  · split at h
    · simp at h
    · unfold afterGlobal at h
      rw [h0] at h
      simp only [] at h
      split at h
      · simp [freshWelcome] at h
        rw [h.symm]
        exact amendedReach_welcome _
      · have := dispatch_session_states env { s0 with last_message_time := env.now }
          cfg.retry m s1 h
        exact this

theorem step_cartInv (env : Env) (cfg : Cfg) (m : String) :
    (∀ s0, cfg.session = some s0 → cartInv s0) →
    ∀ s1, (handleIncomingMessage env cfg m).session = some s1 → cartInv s1 := by
  intro hinv s1 h
  unfold handleIncomingMessage at h
  split at h
  · simp [freshWelcome] at h
    refine ⟨?_, fun _ => ?_⟩ <;> simp [cartLen, h.symm]
  · split at h
    · simp at h
    · unfold afterGlobal at h
      cases h0 : cfg.session
      case none =>
        rw [h0] at h; simp [freshWelcome] at h
        refine ⟨?_, fun _ => ?_⟩ <;> simp [cartLen, h.symm]
      case some s0 =>
        rw [h0] at h
        simp only [] at h
        split at h
        · simp [freshWelcome] at h
          refine ⟨?_, fun _ => ?_⟩ <;> simp [cartLen, h.symm]
        · refine dispatch_cartInv env { s0 with last_message_time := env.now } cfg.retry m
            ?_ s1 h
          have := hinv s0 h0
          exact ⟨this.1, this.2⟩

/-! Reduction helpers: select the branch of the dispatcher that a given
message and session shape take. -/

theorem hIM_nonglobal (env : Env) (cfg : Cfg) (m : String)
    (hG : greetingTokens.contains (pyLower m) = false)
    (hC : pyLower m ≠ "cancel") :
    handleIncomingMessage env cfg m = afterGlobal env cfg m := by
  unfold handleIncomingMessage
  rw [hG]
  simp [hC]

theorem afterGlobal_none (env : Env) (cfg : Cfg) (m : String)
    (h0 : cfg.session = none) :
    afterGlobal env cfg m =
      { session := some (freshWelcome env none), retry := cfg.retry,
        sent := [.welcomeMsg], ret := retSuccess } := by
  unfold afterGlobal
  rw [h0]

theorem afterGlobal_timeout (env : Env) (cfg : Cfg) (s : Session) (m : String)
    (h0 : cfg.session = some s) (hT : env.now - s.last_message_time > 30) :
    afterGlobal env cfg m =
      { session := some (freshWelcome env none), retry := none,
        sent := [.welcomeMsg], ret := retSuccess } := by
  unfold afterGlobal
  rw [h0]
  simp only []
  rw [if_pos hT]

theorem afterGlobal_dispatch (env : Env) (cfg : Cfg) (s : Session) (m : String)
    (h0 : cfg.session = some s) (hT : ¬(env.now - s.last_message_time > 30)) :
    afterGlobal env cfg m =
      dispatchState env { s with last_message_time := env.now } cfg.retry m := by
  unfold afterGlobal
  rw [h0]
  simp only []
  rw [if_neg hT]

theorem dispatch_eq_salon (env : Env) (s : Session) (r : Option Nat) (m : String)
    (hs : s.state = .salon_selection) :
    dispatchState env s r m = handle_salon_selection_state env s r m := by
  unfold dispatchState; rw [hs]

theorem dispatch_eq_service (env : Env) (s : Session) (r : Option Nat) (m : String)
    (hs : s.state = .service_selection) :
    dispatchState env s r m = handle_service_selection_state env s r m := by
  unfold dispatchState; rw [hs]

theorem dispatch_eq_expert (env : Env) (s : Session) (r : Option Nat) (m : String)
    (hs : s.state = .expert_selection) :
    dispatchState env s r m = handle_expert_selection_state env s r m := by
  unfold dispatchState; rw [hs]

theorem dispatch_eq_date (env : Env) (s : Session) (r : Option Nat) (m : String)
    (hs : s.state = .date_selection) :
    dispatchState env s r m = handle_date_selection_state env s r m := by
  unfold dispatchState; rw [hs]

theorem dispatch_eq_time (env : Env) (s : Session) (r : Option Nat) (m : String)
    (hs : s.state = .time_selection) :
    dispatchState env s r m = handle_time_selection_state env s r m := by
  unfold dispatchState; rw [hs]

theorem dispatch_eq_confirmation (env : Env) (s : Session) (r : Option Nat) (m : String)
    (hs : s.state = .confirmation) :
    dispatchState env s r m = handle_confirmation_state env s r m := by
  unfold dispatchState; rw [hs]

theorem dispatch_eq_feedback (env : Env) (s : Session) (r : Option Nat) (m : String)
    (hs : s.state = .feedback) :
    dispatchState env s r m = handle_feedback_state env s r m := by
  unfold dispatchState; rw [hs]

/-! Further fixtures for witnesses and counterexamples. -/

def sSalA : Session :=
  { state := .salon_selection, user_id := some "u1", last_message_time := 0,
    salons := some [sal1] }

def sSvcA : Session :=
  { state := .service_selection, user_id := some "u1", last_message_time := 0,
    selected_salon := some sal1, services := some [svc1] }

def sConfA : Session :=
  { state := .confirmation, user_id := some "u1", last_message_time := 0,
    selected_salon := some sal1, selected_services := some [item1] }

def envLate : Env := { envA with now := 31 }

/-- C8, as stated, is refuted by the message cancel: on a session 31 minutes
stale, cancel is a non-greeting message, yet afterwards there is no session
at all (no fresh welcome session, no welcome prompt), only the cancellation
acknowledgment. -/
theorem C8_counterexample :
    envLate.now - sSalA.last_message_time > 30 ∧
    (handleIncomingMessage envLate { session := some sSalA, retry := none } "cancel").session
      = none ∧
    (handleIncomingMessage envLate { session := some sSalA, retry := none } "cancel").sent
      = [.sms .cancelled] := by decide

/-- C8 amended: for every session more than 30 minutes stale, receiving any
message that is neither a greeting token nor cancel destroys the old session,
installs a fresh welcome session, sends exactly the welcome prompt, returns
success, and performs no appointment request, so the message is not
interpreted as a selection. -/
theorem C8_amended (env : Env) (cfg : Cfg) (s : Session) (m : String)
    (h0 : cfg.session = some s)
    (hG : greetingTokens.contains (pyLower m) = false)
    (hC : pyLower m ≠ "cancel")
    (hT : env.now - s.last_message_time > 30) :
    handleIncomingMessage env cfg m =
      { session := some (freshWelcome env none), retry := none,
        sent := [.welcomeMsg], ret := retSuccess } := by
  rw [hIM_nonglobal env cfg m hG hC, afterGlobal_timeout env cfg s m h0 hT]

/-- C8 amended, exercised: a 31-minute-stale salon-selection session
receiving the text 2 is replaced by a fresh welcome session. -/
theorem C8_witness :
    handleIncomingMessage envLate { session := some sSalA, retry := none } "2" =
      { session := some (freshWelcome envLate none), retry := none,
        sent := [.welcomeMsg], ret := retSuccess } :=
  C8_amended envLate { session := some sSalA, retry := none } sSalA "2"
    rfl (by decide) (by decide) (by decide)

/-- C9: greeting and cancel commands are matched against the lowercased but
untrimmed body, so a body matching a command token only after stripping
whitespace does not fire the global short-circuit: the call goes through
afterGlobal, creating a fresh welcome session when none exists and otherwise
(without a timeout) dispatching the message to the current state's handler. -/
theorem C9_theorem (env : Env) (cfg : Cfg) (m : String)
    (hs : greetingTokens.contains (pyLower (pyStrip m)) = true ∨
      pyLower (pyStrip m) = "cancel")
    (hG : greetingTokens.contains (pyLower m) = false)
    (hC : pyLower m ≠ "cancel") :
    handleIncomingMessage env cfg m = afterGlobal env cfg m ∧
    (cfg.session = none → handleIncomingMessage env cfg m =
      { session := some (freshWelcome env none), retry := cfg.retry,
        sent := [.welcomeMsg], ret := retSuccess }) ∧
    (∀ s, cfg.session = some s → ¬(env.now - s.last_message_time > 30) →
      handleIncomingMessage env cfg m =
        dispatchState env { s with last_message_time := env.now } cfg.retry m) := by
  refine ⟨hIM_nonglobal env cfg m hG hC, ?_, ?_⟩
  · intro h0
    rw [hIM_nonglobal env cfg m hG hC, afterGlobal_none env cfg m h0]
  · intro s h0 hT
    rw [hIM_nonglobal env cfg m hG hC, afterGlobal_dispatch env cfg s m h0 hT]

/-- C9, exercised: the body hi followed by a space, with no session, creates
a fresh welcome session instead of firing the greeting short-circuit. -/
theorem C9_witness :
    handleIncomingMessage envA { session := none, retry := none } "hi " =
      { session := some (freshWelcome envA none), retry := none,
        sent := [.welcomeMsg], ret := retSuccess } :=
  (C9_theorem envA { session := none, retry := none } "hi "
    (Or.inl (by decide)) (by decide) (by decide)).2.1 rfl

/-- The welcome-state frame step shared by the two parts of C10. -/
theorem welcome_step (env : Env) (cfg : Cfg) (s : Session) (m : String)
    (h0 : cfg.session = some s) (hst : s.state = .welcome)
    (hL : pyUpper m ≠ "LOGIN") (hR : pyUpper m ≠ "REGISTER")
    (hG : greetingTokens.contains (pyLower m) = false)
    (hC : pyLower m ≠ "cancel")
    (hT : ¬(env.now - s.last_message_time > 30)) :
    handleIncomingMessage env cfg m =
      { session := some { s with last_message_time := env.now }, retry := cfg.retry,
        sent := [.welcomeMsg], ret := retSuccess } := by
  rw [hIM_nonglobal env cfg m hG hC, afterGlobal_dispatch env cfg s m h0 hT]
  unfold dispatchState
  rw [show ({ s with last_message_time := env.now } : Session).state = BState.welcome from hst]
  simp only []
  rw [if_neg hL, if_neg hR]

/-- A message that triggers none of the welcome-state commands and none of
the global commands. -/
def plainWelcomeMsg (m : String) : Prop :=
  pyUpper m ≠ "LOGIN" ∧ pyUpper m ≠ "REGISTER" ∧
  greetingTokens.contains (pyLower m) = false ∧ pyLower m ≠ "cancel"

theorem welcome_iter (env : Env) (s : Session) (r : Option Nat)
    (hst : s.state = .welcome) (hlast : s.last_message_time = env.now) :
    ∀ ms, (∀ m' ∈ ms, plainWelcomeMsg m') →
      runMessages env { session := some s, retry := r } ms =
        { session := some s, retry := r } := by
  intro ms
  induction ms with
  | nil => intro _; rfl
  | cons m' ms' ih =>
    intro hall
    obtain ⟨hL, hR, hG, hC⟩ := hall m' (List.mem_cons_self m' ms')
    unfold runMessages
    rw [welcome_step env { session := some s, retry := r } s m' rfl hst hL hR hG hC
      (by rw [hlast]; omega)]
    simp only []
    have he : ({ s with last_message_time := env.now } : Session) = s := by
      rw [← hlast]
    rw [he]
    exact ih (fun x hx => hall x (List.mem_cons_of_mem m' hx))

/-- C10: in the welcome state, any message that is not LOGIN or REGISTER
(and not a global command) just re-sends the welcome prompt and returns
success; the session is kept with state welcome and only its activity
timestamp refreshed, and the retry entry is untouched — and therefore any
number of further such messages leaves the session and retry entry exactly
as they were, so the welcome state can never fail hard on invalid input. -/
theorem C10_theorem (env : Env) (cfg : Cfg) (s : Session) (m : String)
    (h0 : cfg.session = some s) (hst : s.state = .welcome)
    (hm : plainWelcomeMsg m)
    (hT : ¬(env.now - s.last_message_time > 30)) :
    handleIncomingMessage env cfg m =
      { session := some { s with last_message_time := env.now }, retry := cfg.retry,
        sent := [.welcomeMsg], ret := retSuccess } ∧
    (∀ ms, (∀ m' ∈ ms, plainWelcomeMsg m') →
      runMessages env cfg (m :: ms) =
        { session := some { s with last_message_time := env.now }, retry := cfg.retry }) := by
  obtain ⟨hL, hR, hG, hC⟩ := hm
  constructor
  · exact welcome_step env cfg s m h0 hst hL hR hG hC hT
  · intro ms hall
    unfold runMessages
    rw [welcome_step env cfg s m h0 hst hL hR hG hC hT]
    simp only []
    exact welcome_iter env { s with last_message_time := env.now } cfg.retry hst rfl ms hall

def sWelA : Session := { state := .welcome, last_message_time := 0 }

/-- C10, exercised: three arbitrary invalid inputs in the welcome state leave
the session in welcome with the retry entry untouched. -/
theorem C10_witness :
    runMessages envA { session := some sWelA, retry := some 1 } ["x", "y", "z"] =
      { session := some { sWelA with last_message_time := envA.now }, retry := some 1 } :=
  (C10_theorem envA { session := some sWelA, retry := some 1 } sWelA "x" rfl rfl
    (by refine ⟨?_, ?_, ?_, ?_⟩ <;> decide) (by decide)).2 ["y", "z"]
    (by intro m' hm'; fin_cases hm' <;> refine ⟨?_, ?_, ?_, ?_⟩ <;> decide)

/-- C3, as stated, is refuted: after two invalid inputs and one valid salon
selection the machine has advanced to service selection but the retry entry
still holds 2, not 0. -/
theorem C3_counterexample :
    ((runMessages envA { session := some sSalA, retry := none } ["abc", "xyz", "1"]).session.map
        Session.state = some BState.service_selection) ∧
    (runMessages envA { session := some sSalA, retry := none } ["abc", "xyz", "1"]).retry
      = some 2 := by decide

/-- C3 amended: the retry entry is never zeroed on a state transition — one
call either leaves it unchanged, removes it together with the session, or
increments it by one — and in particular after two invalid inputs and one
valid selection the machine advances with the counter still at 2. -/
theorem C3_amended :
    (∀ env cfg m, retryStep cfg.retry (handleIncomingMessage env cfg m).retry) ∧
    ((runMessages envA { session := some sSalA, retry := none } ["abc", "xyz", "1"]).session.map
        Session.state = some BState.service_selection ∧
      (runMessages envA { session := some sSalA, retry := none } ["abc", "xyz", "1"]).retry
        = some 2) :=
  ⟨fun env cfg m => handleIncomingMessage_retry env cfg m, by decide⟩

/-- C1, as stated, is refuted: from a confirmation-state session, the
message add more leaves the session in service_selection, which is not a
transition of the legal table (the table allows only confirmation to
salon_selection), and no table check guards this mutation. -/
theorem C1_counterexample :
    sConfA.state = BState.confirmation ∧
    ((handleIncomingMessage envA { session := some sConfA, retry := none } "add more").session.map
        Session.state = some BState.service_selection) ∧
    validateStateTransition BState.confirmation BState.service_selection = false := by decide

/-- C1 amended: after one call the recipient's session is absent, or (when
there was no session) a fresh welcome session, or related to the previous
state by amendedReach: unchanged, restarted to welcome, a transition of the
legal table, or one of the three untabled moves the code actually performs
(confirmation to service_selection on add more, and the backward routes
time_selection/date_selection to date_selection or expert_selection). -/
theorem C1_amended (env : Env) (cfg : Cfg) (m : String) :
    (∀ s1, cfg.session = none → (handleIncomingMessage env cfg m).session = some s1 →
      s1.state = .welcome) ∧
    (∀ s0 s1, cfg.session = some s0 → (handleIncomingMessage env cfg m).session = some s1 →
      amendedReach s0.state s1.state = true) := by
  constructor
  · intro s1 h0 h
    unfold handleIncomingMessage at h
    split at h
    · simp at h; subst h; rfl
    · split at h
      · simp at h
      · rw [afterGlobal_none env cfg m h0] at h
        simp at h; subst h; rfl
  · exact fun s0 s1 h0 h => step_session_states env cfg m s0 s1 h0 h

def s1C1 : Session :=
  ((handleIncomingMessage envA { session := some sConfA, retry := none } "add more").session).getD
    { state := .welcome }

/-- C1 amended, exercised on the add-more jump out of confirmation. -/
theorem C1_witness :
    (handleIncomingMessage envA { session := some sConfA, retry := none } "add more").session
      = some s1C1 ∧
    amendedReach sConfA.state s1C1.state = true :=
  ⟨by decide,
    (C1_amended envA { session := some sConfA, retry := none } "add more").2 sConfA s1C1
      rfl (by decide)⟩

/-- In the confirmation handler, the text add more with a full cart falls
through to the invalid-input branch: retry-counted reprompt, cart unchanged,
or fail-hard when the counter reaches 3. -/
theorem confirm_addmore_full (env : Env) (s : Session) (r : Option Nat) (m : String)
    (hlen : (s.selected_services.getD []).length = 5)
    (hmsg : pyStrip (pyLower m) = "add more") :
    handle_confirmation_state env s r m =
      (if 3 ≤ r.getD 0 + 1 then
        { session := none, retry := none, sent := [.sms .tooManyStartOver],
          ret := retError "Too many retries" }
      else
        { session := some s, retry := some (r.getD 0 + 1), sent := [.sms .invalidConfirmNoAdd],
          ret := retError "Invalid confirmation response" }) := by
  unfold handle_confirmation_state
  simp only []
  rw [hmsg]
  rw [if_neg (by decide : ¬("add more" = "confirm"))]
  rw [if_neg (fun hcond => absurd (hlen ▸ hcond.2) (by decide))]
  rw [if_neg (by decide : ¬("add more" = "cancel"))]
  simp only [incrementRetry, hlen]
  split
  case isTrue hle =>
    rw [if_pos (by simpa using hle)]
  case isFalse hle =>
    have h5 : ¬(3 ≤ r.getD 0 + 1) := by simpa using hle
    rw [if_neg h5]
    norm_num

/-- C6: the cart-bound invariant (at most 5 items, strictly fewer outside
confirmation) is preserved by every call; the confirmation prompt offers add
more exactly when fewer than 5 items are accumulated; and with 5 accumulated
items the text add more is handled as invalid input — retry-counted reprompt
with the cart unchanged (or fail-hard on the third strike) — instead of
adding an item. -/
theorem C6_theorem :
    (∀ env cfg m, (∀ s0, cfg.session = some s0 → cartInv s0) →
      ∀ s1, (handleIncomingMessage env cfg m).session = some s1 → cartInv s1) ∧
    (∀ s r (items : List CartItem), s.selected_services = some items → items ≠ [] →
      items.all itemRenderOk = true →
      (items.length < 5 → (show_confirmation s r).sent = [.sms (.confirmPromptAdd items)]) ∧
      (5 ≤ items.length → (show_confirmation s r).sent = [.sms (.confirmPromptNoAdd items)])) ∧
    (∀ env cfg s m, cfg.session = some s → s.state = .confirmation →
      (s.selected_services.getD []).length = 5 →
      pyStrip (pyLower m) = "add more" →
      greetingTokens.contains (pyLower m) = false → pyLower m ≠ "cancel" →
      ¬(env.now - s.last_message_time > 30) →
      handleIncomingMessage env cfg m =
        (if 3 ≤ cfg.retry.getD 0 + 1 then
          { session := none, retry := none, sent := [.sms .tooManyStartOver],
            ret := retError "Too many retries" }
        else
          { session := some { s with last_message_time := env.now },
            retry := some (cfg.retry.getD 0 + 1), sent := [.sms .invalidConfirmNoAdd],
            ret := retError "Invalid confirmation response" })) := by
  refine ⟨step_cartInv, ?_, ?_⟩
  · intro s r items hitems hne hok
    unfold show_confirmation
    simp only []
    rw [hitems]
    simp only [Option.getD_some]
    rw [if_neg (by simpa using hne)]
    rw [if_pos hok]
    constructor
    · intro hlt; rw [if_pos hlt]
    · intro hge; rw [if_neg (by omega)]
  · intro env cfg s m h0 hst hlen hmsg hG hC hT
    rw [hIM_nonglobal env cfg m hG hC, afterGlobal_dispatch env cfg s m h0 hT]
    rw [dispatch_eq_confirmation env _ cfg.retry m
      (by simpa using hst)]
    exact confirm_addmore_full env _ cfg.retry m (by simpa using hlen) hmsg

def sConf5 : Session :=
  { state := .confirmation, user_id := some "u1", last_message_time := 0,
    selected_salon := some sal1,
    selected_services := some [item1, item1, item1, item1, item1] }

/-- C6, exercised: the prompt with one item offers add more, and the text
add more with five items is a retry-counted reprompt leaving the cart
unchanged. -/
theorem C6_witness :
    (show_confirmation sConfA none).sent = [.sms (.confirmPromptAdd [item1])] ∧
    handleIncomingMessage envA { session := some sConf5, retry := none } "Add More " =
      { session := some { sConf5 with last_message_time := envA.now }, retry := some 1,
        sent := [.sms .invalidConfirmNoAdd], ret := retError "Invalid confirmation response" } := by
  constructor
  · exact (C6_theorem.2.1 sConfA none [item1] rfl (by decide) (by decide)).1 (by decide)
  · rw [C6_theorem.2.2 envA { session := some sConf5, retry := none } sConf5 "Add More "
      rfl rfl (by decide) (by decide) (by decide) (by decide) (by decide)]
    decide

/-- An inbound text that a numbered-list selection step rejects against a
list of n options: unparseable as an integer, below 1, or beyond the list. -/
def invalidIndexFor (m : String) (n : Nat) : Bool :=
  match parseInt m with
  | none => true
  | some v => decide (v < 1) || decide (n ≤ v.toNat - 1)

/-- An inbound text the feedback step rejects: its part before the first
dash is not an integer between 1 and 5. -/
def invalidRating (m : String) : Bool :=
  match parseInt (splitFirst m '-').1 with
  | none => true
  | some v => decide (v < 1) || decide (5 < v)

theorem salon_3rd (env : Env) (s : Session) (m : String)
    (hne : s.salons.getD [] ≠ [])
    (hv : invalidIndexFor m (s.salons.getD []).length = true) :
    handle_salon_selection_state env s (some 2) m =
      { session := none, retry := none, sent := [.sms .tooManyStartOver],
        ret := retError "Too many retries" } := by
  unfold handle_salon_selection_state
  cases hp : parseInt m with
  | none => simp [incrementRetry]
  | some v =>
    unfold invalidIndexFor at hv
    rw [hp] at hv
    simp only []
    rw [if_neg (by simpa [List.isEmpty_iff] using hne)]
    simp only [Bool.or_eq_true, decide_eq_true_eq] at hv
    rcases hv with hv1 | hv2
    · rw [if_neg (by omega)]
      simp [incrementRetry]
    · by_cases h1 : 1 ≤ v
      · rw [if_pos h1, List.get?_eq_none.mpr hv2]
        simp [incrementRetry]
      · rw [if_neg h1]
        simp [incrementRetry]

theorem date_3rd (env : Env) (s : Session) (m : String)
    (hne : s.available_dates.getD [] ≠ [])
    (hv : invalidIndexFor m (s.available_dates.getD []).length = true) :
    handle_date_selection_state env s (some 2) m =
      { session := none, retry := none, sent := [.sms .tooManyStartOver],
        ret := retError "Too many retries" } := by
  unfold handle_date_selection_state
  cases hp : parseInt m with
  | none => simp [incrementRetry]
  | some v =>
    unfold invalidIndexFor at hv
    rw [hp] at hv
    simp only []
    rw [if_neg (by simpa [List.isEmpty_iff] using hne)]
    simp only [Bool.or_eq_true, decide_eq_true_eq] at hv
    rcases hv with hv1 | hv2
    · rw [if_neg (by omega)]
      simp [incrementRetry]
    · by_cases h1 : 1 ≤ v
      · rw [if_pos h1, List.get?_eq_none.mpr hv2]
        simp [incrementRetry]
      · rw [if_neg h1]
        simp [incrementRetry]

theorem time_3rd (env : Env) (s : Session) (m : String)
    (hne : s.available_time_slots.getD [] ≠ [])
    (hv : invalidIndexFor m (s.available_time_slots.getD []).length = true) :
    handle_time_selection_state env s (some 2) m =
      { session := none, retry := none, sent := [.sms .tooManySendHi],
        ret := retError "Too many retries" } := by
  unfold handle_time_selection_state
  cases hp : parseInt m with
  | none => simp [incrementRetry]
  | some v =>
    unfold invalidIndexFor at hv
    rw [hp] at hv
    simp only []
    rw [if_neg (by simpa [List.isEmpty_iff] using hne)]
    simp only [Bool.or_eq_true, decide_eq_true_eq] at hv
    rcases hv with hv1 | hv2
    · rw [if_neg (by omega)]
      simp [incrementRetry]
    · by_cases h1 : 1 ≤ v
      · rw [if_pos h1, List.get?_eq_none.mpr hv2]
        simp [incrementRetry]
      · rw [if_neg h1]
        simp [incrementRetry]

theorem confirmation_3rd (env : Env) (s : Session) (m : String)
    (h1 : pyStrip (pyLower m) ≠ "confirm")
    (h2 : pyStrip (pyLower m) ≠ "add more")
    (h3 : pyStrip (pyLower m) ≠ "cancel") :
    handle_confirmation_state env s (some 2) m =
      { session := none, retry := none, sent := [.sms .tooManyStartOver],
        ret := retError "Too many retries" } := by
  unfold handle_confirmation_state
  simp only []
  rw [if_neg h1, if_neg (fun hc => h2 hc.1), if_neg h3]
  simp [incrementRetry]

theorem feedback_3rd (env : Env) (s : Session) (m : String)
    (hv : invalidRating m = true) :
    handle_feedback_state env s (some 2) m =
      { session := none, retry := none, sent := [.sms .feedbackTooMany],
        ret := retError "Too many retries" } := by
  unfold handle_feedback_state
  simp only []
  cases hp : parseInt (splitFirst m '-').1 with
  | none => simp [incrementRetry]
  | some v =>
    unfold invalidRating at hv
    rw [hp] at hv
    simp only [Bool.or_eq_true, decide_eq_true_eq] at hv
    have hnotok : decide (1 ≤ v ∧ v ≤ 5) = false := by
      simp only [decide_eq_false_iff_not]
      omega
    simp [hnotok, incrementRetry]

theorem service_3rd (env : Env) (s : Session) (m : String)
    (hne : s.services.getD [] ≠ [])
    (hv : invalidIndexFor m (s.services.getD []).length = true) :
    handle_service_selection_state env s (some 2) m = show_services env s (some 3) := by
  unfold handle_service_selection_state
  cases hp : parseInt m with
  | none => simp [incrementRetry]
  | some v =>
    unfold invalidIndexFor at hv
    rw [hp] at hv
    simp only []
    rw [if_neg (by simpa [List.isEmpty_iff] using hne)]
    simp only [Bool.or_eq_true, decide_eq_true_eq] at hv
    rcases hv with hv1 | hv2
    · rw [if_neg (by omega)]
      simp [incrementRetry]
    · by_cases h1 : 1 ≤ v
      · rw [if_pos h1, List.get?_eq_none.mpr hv2]
        simp [incrementRetry]
      · rw [if_neg h1]
        simp [incrementRetry]

theorem expert_3rd (env : Env) (s : Session) (m : String)
    (hne : s.experts.getD [] ≠ [])
    (hv : invalidIndexFor m (s.experts.getD []).length = true) :
    handle_expert_selection_state env s (some 2) m = show_experts env s (some 3) := by
  unfold handle_expert_selection_state
  cases hp : parseInt m with
  | none => simp [incrementRetry]
  | some v =>
    unfold invalidIndexFor at hv
    rw [hp] at hv
    simp only []
    rw [if_neg (by simpa [List.isEmpty_iff] using hne)]
    simp only [Bool.or_eq_true, decide_eq_true_eq] at hv
    rcases hv with hv1 | hv2
    · rw [if_neg (by omega)]
      simp [incrementRetry]
    · by_cases h1 : 1 ≤ v
      · rw [if_pos h1, List.get?_eq_none.mpr hv2]
        simp [incrementRetry]
      · rw [if_neg h1]
        simp [incrementRetry]

/-- C2, as stated, is refuted: in service_selection, the third consecutive
invalid input does not destroy the session — the service list is re-shown,
the session is kept, and the retry entry reaches 3 without a failure
message. -/
theorem C2_counterexample :
    (handleIncomingMessage envA { session := some sSvcA, retry := some 2 } "abc").session.isSome
      = true ∧
    (handleIncomingMessage envA { session := some sSvcA, retry := some 2 } "abc").retry
      = some 3 ∧
    (handleIncomingMessage envA { session := some sSvcA, retry := some 2 } "abc").sent
      = [.sms (.serviceList [svc1])] := by decide

/-- C2 amended: with the retry entry at 2 (so the incoming message is the
third consecutive invalid input), an invalid input fails hard — session and
retry entry destroyed and one failure message sent — in salon_selection,
date_selection, time_selection, confirmation, and feedback; in
expert_selection it re-runs the expert-list step, which in this program
always fails (the collaborator returns id strings the renderer cannot
format) so the session and retry entry are also destroyed, though with the
list step's trouble message; only in service_selection is the session kept,
re-showing the service list with the retry entry at 3. -/
theorem C2_amended (env : Env) (cfg : Cfg) (s : Session) (m : String)
    (h0 : cfg.session = some s) (hr : cfg.retry = some 2)
    (hG : greetingTokens.contains (pyLower m) = false)
    (hC : pyLower m ≠ "cancel")
    (hT : ¬(env.now - s.last_message_time > 30)) :
    (∀ l, s.state = .salon_selection → s.salons = some l → l ≠ [] →
      invalidIndexFor m l.length = true →
      handleIncomingMessage env cfg m =
        { session := none, retry := none, sent := [.sms .tooManyStartOver],
          ret := retError "Too many retries" }) ∧
    (∀ l, s.state = .date_selection → s.available_dates = some l → l ≠ [] →
      invalidIndexFor m l.length = true →
      handleIncomingMessage env cfg m =
        { session := none, retry := none, sent := [.sms .tooManyStartOver],
          ret := retError "Too many retries" }) ∧
    (∀ l, s.state = .time_selection → s.available_time_slots = some l → l ≠ [] →
      invalidIndexFor m l.length = true →
      handleIncomingMessage env cfg m =
        { session := none, retry := none, sent := [.sms .tooManySendHi],
          ret := retError "Too many retries" }) ∧
    (s.state = .confirmation → pyStrip (pyLower m) ≠ "confirm" →
      pyStrip (pyLower m) ≠ "add more" → pyStrip (pyLower m) ≠ "cancel" →
      handleIncomingMessage env cfg m =
        { session := none, retry := none, sent := [.sms .tooManyStartOver],
          ret := retError "Too many retries" }) ∧
    (s.state = .feedback → invalidRating m = true →
      handleIncomingMessage env cfg m =
        { session := none, retry := none, sent := [.sms .feedbackTooMany],
          ret := retError "Too many retries" }) ∧
    (∀ l, s.state = .service_selection → s.services = some l → l ≠ [] →
      invalidIndexFor m l.length = true →
      handleIncomingMessage env cfg m =
        show_services env { s with last_message_time := env.now } (some 3)) ∧
    (∀ l, s.state = .expert_selection → s.experts = some l → l ≠ [] →
      invalidIndexFor m l.length = true →
      handleIncomingMessage env cfg m =
        show_experts env { s with last_message_time := env.now } (some 3) ∧
      (handleIncomingMessage env cfg m).session = none ∧
      (handleIncomingMessage env cfg m).retry = none) := by
  have hbase : handleIncomingMessage env cfg m =
      dispatchState env { s with last_message_time := env.now } cfg.retry m := by
    rw [hIM_nonglobal env cfg m hG hC, afterGlobal_dispatch env cfg s m h0 hT]
  refine ⟨?_, ?_, ?_, ?_, ?_, ?_, ?_⟩
  · intro l hst hl hne hv
    rw [hbase, dispatch_eq_salon env _ cfg.retry m (by simpa using hst), hr]
    exact salon_3rd env _ m (by simp [hl, hne]) (by simpa [hl] using hv)
  · intro l hst hl hne hv
    rw [hbase, dispatch_eq_date env _ cfg.retry m (by simpa using hst), hr]
    exact date_3rd env _ m (by simp [hl, hne]) (by simpa [hl] using hv)
  · intro l hst hl hne hv
    rw [hbase, dispatch_eq_time env _ cfg.retry m (by simpa using hst), hr]
    exact time_3rd env _ m (by simp [hl, hne]) (by simpa [hl] using hv)
  · intro hst h1 h2 h3
    rw [hbase, dispatch_eq_confirmation env _ cfg.retry m (by simpa using hst), hr]
    exact confirmation_3rd env _ m h1 h2 h3
  · intro hst hv
    rw [hbase, dispatch_eq_feedback env _ cfg.retry m (by simpa using hst), hr]
    exact feedback_3rd env _ m hv
  · intro l hst hl hne hv
    rw [hbase, dispatch_eq_service env _ cfg.retry m (by simpa using hst), hr]
    exact service_3rd env _ m (by simp [hl, hne]) (by simpa [hl] using hv)
  · intro l hst hl hne hv
    have he : handleIncomingMessage env cfg m =
        show_experts env { s with last_message_time := env.now } (some 3) := by
      rw [hbase, dispatch_eq_expert env _ cfg.retry m (by simpa using hst), hr]
      exact expert_3rd env _ m (by simp [hl, hne]) (by simpa [hl] using hv)
    refine ⟨he, ?_, ?_⟩
    · rw [he]; exact (show_experts_resets env _ (some 3)).1
    · rw [he]; exact (show_experts_resets env _ (some 3)).2

def sExpA : Session :=
  { state := .expert_selection, user_id := some "u1", last_message_time := 0,
    selected_salon := some sal1, experts := some [exp1] }

/-- C2 amended, exercised: the third invalid input destroys a
salon_selection session, only re-shows the list in service_selection, and in
expert_selection ends with the session destroyed by the expert-list step. -/
theorem C2_witness :
    handleIncomingMessage envA { session := some sSalA, retry := some 2 } "abc" =
      { session := none, retry := none, sent := [.sms .tooManyStartOver],
        ret := retError "Too many retries" } ∧
    handleIncomingMessage envA { session := some sSvcA, retry := some 2 } "abc" =
      show_services envA { sSvcA with last_message_time := envA.now } (some 3) ∧
    (handleIncomingMessage envA { session := some sExpA, retry := some 2 } "abc").session
      = none := by
  refine ⟨?_, ?_, ?_⟩
  · exact (C2_amended envA { session := some sSalA, retry := some 2 } sSalA "abc"
      rfl rfl (by decide) (by decide) (by decide)).1 [sal1] rfl rfl (by decide) (by decide)
  · exact (C2_amended envA { session := some sSvcA, retry := some 2 } sSvcA "abc"
      rfl rfl (by decide) (by decide) (by decide)).2.2.2.2.2.1 [svc1] rfl rfl
      (by decide) (by decide)
  · exact ((C2_amended envA { session := some sExpA, retry := some 2 } sExpA "abc"
      rfl rfl (by decide) (by decide) (by decide)).2.2.2.2.2.2 [exp1] rfl rfl
      (by decide) (by decide)).2.1

/-- Whether the commit loop can parse this cart item: both slot labels and
the date survive strptime. -/
theorem appointmentCreateOk_false : appointmentCreateOk = false := by decide

/-- With a cart item at the head, the commit loop always aborts before any
collaborator request: either a parse fails, or the AppointmentCreate
construction raises ValidationError because the engine's keyword set misses
the schema's required user and service fields. -/
theorem commitItems_cons (env : Env) (uid : String) (it : CartItem) (rest : List CartItem) :
    commitItems env uid (it :: rest) = ([], [], false) := by
  unfold commitItems
  cases h1 : parse12h it.time_slot.start_time with
  | none => rfl
  | some x =>
    cases h2 : parse12h it.time_slot.end_time with
    | none => rfl
    | some y =>
      cases h3 : parseDate it.date with
      | none => rfl
      | some z =>
        simp only []
        rw [if_neg (by rw [appointmentCreateOk_false]; decide)]

/-- C4: the claim is the spec's intent, but the code cannot perform it — the
confirmation handler builds AppointmentCreate from keywords that omit the
schema's required user and service fields, so pydantic validation raises for
every item, the collaborator is never asked to create anything, and on
confirm with a nonempty cart the recipient always gets the single generic
failure message with the session destroyed; the per-item commit and the
consolidated success message are unreachable. -/
theorem C4_theorem (env : Env) (cfg : Cfg) (s : Session) (m : String)
    (h0 : cfg.session = some s) (hst : s.state = .confirmation)
    (hmsg : pyStrip (pyLower m) = "confirm")
    (hG : greetingTokens.contains (pyLower m) = false)
    (hC : pyLower m ≠ "cancel")
    (hT : ¬(env.now - s.last_message_time > 30)) :
    appointmentCreateOk = false ∧
    (∀ items, s.selected_services = some items → items ≠ [] →
      (handleIncomingMessage env cfg m).session = none ∧
      (handleIncomingMessage env cfg m).retry = none ∧
      (handleIncomingMessage env cfg m).sent = [.sms .appointmentsError] ∧
      (handleIncomingMessage env cfg m).apptRequests = [] ∧
      (handleIncomingMessage env cfg m).apptCreated = [] ∧
      (handleIncomingMessage env cfg m).ret.status = some "error") := by
  refine ⟨appointmentCreateOk_false, ?_⟩
  intro items hitems hne
  have hbase : handleIncomingMessage env cfg m =
      handle_confirmation_state env { s with last_message_time := env.now } cfg.retry m := by
    rw [hIM_nonglobal env cfg m hG hC, afterGlobal_dispatch env cfg s m h0 hT,
      dispatch_eq_confirmation env _ cfg.retry m (by simpa using hst)]
  rw [hbase]
  unfold handle_confirmation_state
  simp only []
  rw [hmsg]
  rw [if_pos (rfl : ("confirm" : String) = "confirm")]
  have hsel : ({ s with last_message_time := env.now } : Session).selected_services
      = some items := hitems
  rw [hsel]
  simp only [Option.getD_some]
  cases items with
  | nil => exact absurd rfl hne
  | cons it0 rest =>
    cases huid : ({ s with last_message_time := env.now } : Session).user_id with
    | none => exact ⟨rfl, rfl, rfl, rfl, rfl, rfl⟩
    | some uid =>
      simp only []
      rw [commitItems_cons env uid it0 rest]
      simp only [Bool.false_eq_true, if_false]
      exact ⟨trivial, trivial, trivial, trivial, trivial, rfl⟩

def sConfB : Session := { sConfA with selected_services := some [item1, item1] }

/-- C4, exercised at the failing input: a two-item cart and confirm yield
the generic failure, no creation requests, and no session. -/
theorem C4_witness :
    (handleIncomingMessage envA { session := some sConfB, retry := none } "confirm").sent
      = [.sms .appointmentsError] ∧
    (handleIncomingMessage envA { session := some sConfB, retry := none } "confirm").apptRequests
      = [] ∧
    (handleIncomingMessage envA { session := some sConfB, retry := none } "confirm").session
      = none := by
  have h := C4_theorem envA { session := some sConfB, retry := none } sConfB "confirm"
    rfl rfl (by decide) (by decide) (by decide) (by decide)
  obtain ⟨h1, h2, h3, h4, h5, h6⟩ := h.2 [item1, item1] rfl (by decide)
  exact ⟨h3, h4, h1⟩

def envNoSvc : Env := { envA with get_salon_services := fun _ => .ok [] }

/-- The 7-date list produced by show-available-dates. -/
def datesOf (env : Env) : List String :=
  (List.range 7).map (fun i => env.date_of (env.today + (i + 1)))

/-- C7, as stated, is refuted: when the selected salon has no services, the
recipient is told so but the session is destroyed outright (told to restart
with hi) instead of being routed backward to an earlier state. -/
theorem C7_counterexample :
    (handleIncomingMessage envNoSvc { session := some sSalA, retry := none } "1").session
      = none ∧
    (handleIncomingMessage envNoSvc { session := some sSalA, retry := none } "1").sent
      = [.sms .noServicesAtSalon] := by decide

/-- C7 amended: on an empty option set the recipient is always told so, but
the routing differs by step — an empty service or expert list destroys the
session (restart required), an empty salon list keeps the session unchanged
in place, a time-slot step whose availability template has no open slot for
the day routes backward to date selection and re-shows the dates, and the
date list can never be empty since it always holds exactly 7 dates. -/
theorem C7_amended :
    (∀ env s r sal, s.selected_salon = some sal →
      env.get_salon_services sal.salon_id = .ok [] →
      show_services env s r =
        { session := none, retry := none, sent := [.sms .noServicesAtSalon],
          ret := retError "No services available" }) ∧
    (∀ env s r sal, s.selected_salon = some sal →
      env.get_salon_experts sal.salon_id = .ok [] →
      show_experts env s r =
        { session := none, retry := none, sent := [.sms .noExpertsAtSalon],
          ret := retError "No experts available" }) ∧
    (∀ env s r, env.get_all_salons = .ok [] →
      show_salons env s r =
        { session := some s, retry := r, sent := [.sms .noSalons],
          ret := retError "No salons available" }) ∧
    (∀ env s r sal ex av ds y mo dd,
      s.selected_salon = some sal → s.selected_expert = some ex →
      s.selected_date.bind parseDate = some (y, mo, dd) →
      env.get_expert_availability sal.salon_id ex.expert_id = some av →
      av.is_available = true →
      lookupDay av.days (toString (pyWeekday y mo dd)) = some ds →
      ds.any (· = true) = false →
      show_available_times env s r =
        { session := some { s with state := .date_selection, available_dates := some (datesOf env) },
          retry := r,
          sent := [.sms .noTimeSlotsForDate, .sms (.dateList (datesOf env))],
          ret := retSuccess }) ∧
    (∀ env s r, ∃ ds, show_available_dates env s r =
        { session := some { s with available_dates := some ds }, retry := r,
          sent := [.sms (.dateList ds)], ret := retSuccess } ∧ ds.length = 7) := by
  refine ⟨?_, ?_, ?_, ?_, ?_⟩
  · intro env s r sal hsal hsvc
    unfold show_services
    simp only [hsal, hsvc]
    rfl
  · intro env s r sal hsal hex
    unfold show_experts
    simp only [hsal, hex]
    rfl
  · intro env s r hg
    unfold show_salons
    simp only [hg]
    rfl
  · intro env s r sal ex av ds y mo dd hsal hex hbind hav hisav hday hall
    unfold show_available_times
    simp only [hsal, hex, hbind, hav, hisav, hday, hall, Option.getD_some, Bool.not_true,
      Bool.not_false, Bool.false_eq_true, if_false, if_true, eq_self_iff_true]
    unfold show_available_dates
    simp [datesOf]
  · intro env s r
    exact ⟨datesOf env, rfl, by simp [datesOf]⟩

def avNone : Availability := { is_available := true, days := [("0", List.replicate 13 false)] }

def envAvNone : Env := { envA with get_expert_availability := fun _ _ => some avNone }

def sTimeA : Session :=
  { sSvcA with selected_expert := some exp1, selected_date := some "2025-10-20" }

/-- C7 amended, exercised on the empty-service and empty-time-slot cases. -/
theorem C7_witness :
    show_services envNoSvc sSvcA none =
      { session := none, retry := none, sent := [.sms .noServicesAtSalon],
        ret := retError "No services available" } ∧
    show_available_times envAvNone sTimeA none =
      { session := some { sTimeA with state := .date_selection, available_dates := some (datesOf envAvNone) },
        retry := none,
        sent := [.sms .noTimeSlotsForDate, .sms (.dateList (datesOf envAvNone))],
        ret := retSuccess } := by
  constructor
  · exact C7_amended.1 envNoSvc sSvcA none sal1 rfl rfl
  · exact C7_amended.2.2.2.1 envAvNone sTimeA none sal1 exp1 avNone
      (List.replicate 13 false) 2025 10 20 rfl rfl (by decide) rfl rfl (by decide) (by decide)

/-- An appointment stored in the shape the engine itself writes: the
appointment_date datetime carries the slot hour (booking_service.py lines
872-877), not midnight. -/
def apptC5 : Appt :=
  { expert_id := "ex1",
    appointment_date := { year := 2025, month := 10, day := 20, hour := 10, minute := 0 },
    appointment_time := "10:00 AM", status := "pending" }

def envC5 : Env := { envA with appointments := [apptC5] }

def sTimeB : Session :=
  { state := .time_selection, user_id := some "u1", last_message_time := 0,
    selected_salon := some sal1, selected_service := some svc1,
    selected_expert := some exp1, selected_date := some "2025-10-20" }

/-- C5: the claim states the conflict rule the code intends, but the code
violates it — the query compares appointment_date against the midnight
datetime parsed from selected_date by exact equality, while the engine's own
write path stores slot-hour datetimes, so a pending appointment for this
expert on this exact date at the 10:00 AM bucket exists, the query reports
no conflict, and the 10:00 AM slot is offered anyway. -/
theorem C5_theorem :
    (∃ a ∈ envC5.appointments, a.expert_id = exp1.expert_id ∧
      a.appointment_date.year = 2025 ∧ a.appointment_date.month = 10 ∧
      a.appointment_date.day = 20 ∧ a.appointment_time = "10:00 AM" ∧
      a.status = "pending") ∧
    ((((show_available_times envC5 sTimeB none).session.bind
        Session.available_time_slots).getD []).map Slot.start_time).contains "10:00 AM"
      = true ∧
    ((show_available_times envC5 sTimeB none).session.map Session.state
      = some BState.time_selection) ∧
    hasConflict envC5 exp1.expert_id
      { year := 2025, month := 10, day := 20, hour := 0, minute := 0 } "10:00 AM"
      = false := by decide

end SalonBooking
